import Mathlib

/-!
# Verification of the config-store Lambda handler (`src/app.py`)

Shallow embedding of `app.py`: a key/value configuration service over HTTP
(POST = create, GET = read, PATCH = partial update) backed by DynamoDB (the
durable, authoritative store) and mirrored best-effort into Valkey (the
volatile cache).  Values travel to the cache as UTF-8 JSON text produced by
`json.dumps` and are read back with `json.loads`, so the development starts
with a JSON value model together with an executable printer and parser and a
proof that the parser inverts the printer.

Modelling conventions:

* JSON numbers are modelled as integers (the values exercised by the spec are
  integers; floats are out of scope).
* The printer escapes `"` and `\` exactly as `json.dumps` does for printable
  ASCII payloads; control characters and non-ASCII text (which `json.dumps`
  would `\u`-escape) are outside the faithful domain of the model, and the
  claim statements that depend on serialization carry a printable-ASCII
  well-formedness hypothesis for honesty.
* Parsed JSON objects are Python dicts: a duplicated key keeps the first
  position and the last value (`insertPy`), exactly as `dict` assignment does.
-/

namespace ConfigApp

mutual

inductive JVal : Type where
  | jnull : JVal
  | jbool : Bool → JVal
  | jnum : Int → JVal
  | jstr : String → JVal
  | jarr : JList → JVal
  | jobj : JFields → JVal

inductive JList : Type where
  | lnil : JList
  | lcons : JVal → JList → JList

inductive JFields : Type where
  | fnil : JFields
  | fcons : String → JVal → JFields → JFields

end

deriving instance DecidableEq for JVal, JList, JFields

open JVal JList JFields

/-- Digit character for a decimal digit. -/
def digitToChar : Nat → Char
  | 0 => '0' | 1 => '1' | 2 => '2' | 3 => '3' | 4 => '4'
  | 5 => '5' | 6 => '6' | 7 => '7' | 8 => '8' | 9 => '9'
  | _ => '0'

/-- Big-endian decimal rendering of a natural number, with fuel (the fuel
`n + 1` always suffices); mirrors how `json.dumps` prints integers. -/
def natChars : Nat → Nat → List Char → List Char
  | 0, _, acc => acc
  | f + 1, n, acc =>
    if n < 10 then digitToChar n :: acc
    else natChars f (n / 10) (digitToChar (n % 10) :: acc)

/-- Decimal rendering of an integer (minus sign for negatives). -/
def numChars (i : Int) : List Char :=
  if i < 0 then '-' :: natChars (i.natAbs + 1) i.natAbs []
  else natChars (i.toNat + 1) i.toNat []

/-- `json.dumps` escaping of one string character (printable-ASCII domain). -/
def escChar (c : Char) : List Char :=
  if c = '"' ∨ c = '\\' then ['\\', c] else [c]

def escChars : List Char → List Char
  | [] => []
  | c :: t => escChar c ++ escChars t

/-- A JSON string literal: quote, escaped body, quote. -/
def strChars (s : String) : List Char := '"' :: (escChars s.data ++ ['"'])

mutual

/-- Characters of `json.dumps v` (default separators: item `", "`, key `": "`). -/
def dumpVal : JVal → List Char
  | .jnull => ['n', 'u', 'l', 'l']
  | .jbool true => ['t', 'r', 'u', 'e']
  | .jbool false => ['f', 'a', 'l', 's', 'e']
  | .jnum i => numChars i
  | .jstr s => strChars s
  | .jarr .lnil => ['[', ']']
  | .jarr (.lcons v t) => '[' :: ((dumpVal v ++ dumpItems t) ++ [']'])
  | .jobj .fnil => ['{', '}']
  | .jobj (.fcons k v t) =>
    '{' :: ((strChars k ++ ':' :: ' ' :: dumpVal v ++ dumpPairs t) ++ ['}'])
termination_by structural v => v

/-- Remaining array items, each preceded by `", "`. -/
def dumpItems : JList → List Char
  | .lnil => []
  | .lcons v t => ',' :: ' ' :: (dumpVal v ++ dumpItems t)
termination_by structural t => t

/-- Remaining object entries, each preceded by `", "`. -/
def dumpPairs : JFields → List Char
  | .fnil => []
  | .fcons k v t => ',' :: ' ' :: (strChars k ++ ':' :: ' ' :: dumpVal v ++ dumpPairs t)
termination_by structural t => t

end

/-- One object entry `"k": v` (abbreviation used by the proofs). -/
def pairChars (k : String) (v : JVal) : List Char :=
  strChars k ++ ':' :: ' ' :: dumpVal v

/-- `json.dumps`. -/
def dumps (v : JVal) : String := ⟨dumpVal v⟩

/-! ## The parser (`json.loads`) -/

def isWsC (c : Char) : Bool := c = ' ' || c = '\n' || c = '\t' || c = '\r'

def skipWs : List Char → List Char
  | [] => []
  | c :: t => if isWsC c then skipWs t else c :: t

def isDigitC (c : Char) : Bool := 48 ≤ c.toNat && c.toNat ≤ 57

/-- Longest digit prefix and the remainder. -/
def spanDigits : List Char → List Char × List Char
  | [] => ([], [])
  | c :: t =>
    if isDigitC c then
      let p := spanDigits t
      (c :: p.1, p.2)
    else ([], c :: t)

/-- Value of a big-endian digit string. -/
def digitsVal (ds : List Char) : Nat :=
  ds.foldl (fun a c => a * 10 + (c.toNat - 48)) 0

/-- Body of a JSON string literal after the opening quote, handling the two
escapes the printer emits. -/
def parseStrBody : List Char → Option (List Char × List Char)
  | [] => none
  | c :: t =>
    if c = '"' then some ([], t)
    else if c = '\\' then
      match t with
      | [] => none
      | c2 :: t2 =>
        if c2 = '"' ∨ c2 = '\\' then
          match parseStrBody t2 with
          | some (s, r) => some (c2 :: s, r)
          | none => none
        else none
    else
      match parseStrBody t with
      | some (s, r) => some (c :: s, r)
      | none => none

/-- Python dict assignment `d[key] = v`: replaces in place, else appends. -/
def insertPy : JFields → String → JVal → JFields
  | .fnil, key, v => .fcons key v .fnil
  | .fcons k w t, key, v =>
    if k = key then .fcons k v t else .fcons k w (insertPy t key v)

mutual

/-- One JSON value (fuel-based recursive-descent parser). -/
def parseVal : Nat → List Char → Option (JVal × List Char)
  | 0, _ => none
  | f + 1, cs =>
    match skipWs cs with
    | [] => none
    | c :: r =>
      if c = 'n' then
        match r with
        | 'u' :: 'l' :: 'l' :: r2 => some (.jnull, r2)
        | _ => none
      else if c = 't' then
        match r with
        | 'r' :: 'u' :: 'e' :: r2 => some (.jbool true, r2)
        | _ => none
      else if c = 'f' then
        match r with
        | 'a' :: 'l' :: 's' :: 'e' :: r2 => some (.jbool false, r2)
        | _ => none
      else if c = '"' then
        match parseStrBody r with
        | some (s, r2) => some (.jstr ⟨s⟩, r2)
        | none => none
      else if c = '[' then
        match skipWs r with
        | [] => none
        | d :: r2 =>
          if d = ']' then some (.jarr .lnil, r2)
          else
            match parseItems f (d :: r2) with
            | some (xs, r3) => some (.jarr xs, r3)
            | none => none
      else if c = '{' then
        match skipWs r with
        | [] => none
        | d :: r2 =>
          if d = '}' then some (.jobj .fnil, r2)
          else
            match parsePairs f .fnil (d :: r2) with
            | some (fs, r3) => some (.jobj fs, r3)
            | none => none
      else if c = '-' then
        match spanDigits r with
        | ([], _) => none
        | (ds, r2) => some (.jnum (-(digitsVal ds : Int)), r2)
      else if isDigitC c then
        match spanDigits (c :: r) with
        | (ds, r2) => some (.jnum ((digitsVal ds : Int)), r2)
      else none

/-- One or more array items followed by `]`. -/
def parseItems : Nat → List Char → Option (JList × List Char)
  | 0, _ => none
  | f + 1, cs =>
    match parseVal f cs with
    | none => none
    | some (v, r) =>
      match skipWs r with
      | [] => none
      | d :: r2 =>
        if d = ']' then some (.lcons v .lnil, r2)
        else if d = ',' then
          match parseItems f r2 with
          | some (xs, r3) => some (.lcons v xs, r3)
          | none => none
        else none

/-- One or more `"key": value` entries followed by `}`, accumulated with
Python dict semantics. -/
def parsePairs : Nat → JFields → List Char → Option (JFields × List Char)
  | 0, _, _ => none
  | f + 1, acc, cs =>
    match skipWs cs with
    | [] => none
    | c :: r =>
      if c = '"' then
        match parseStrBody r with
        | none => none
        | some (k, r2) =>
          match skipWs r2 with
          | [] => none
          | d :: r3 =>
            if d = ':' then
              match parseVal f r3 with
              | none => none
              | some (v, r4) =>
                match skipWs r4 with
                | [] => none
                | e :: r5 =>
                  if e = '}' then some (insertPy acc ⟨k⟩ v, r5)
                  else if e = ',' then
                    match parsePairs f (insertPy acc ⟨k⟩ v) r5 with
                    | some p => some p
                    | none => none
                  else none
            else none
      else none

end

/-- `json.loads`: parse one value, allow trailing whitespace only. -/
def loads (s : String) : Option JVal :=
  match parseVal (s.data.length + 1) s.data with
  | some (v, r) => if skipWs r = [] then some v else none
  | none => none

example : dumpVal (.jobj (.fcons "a" (.jnum 1) (.fcons "b" (.jnum 23) .fnil)))
    = "\x7b\"a\": 1, \"b\": 23\x7d".data := by decide

example : loads "\x7b\"a\": 1, \"b\": -23\x7d"
    = some (.jobj (.fcons "a" (.jnum 1) (.fcons "b" (.jnum (-23)) .fnil))) := by rfl

example : loads (dumps (.jarr (.lcons (.jstr "x\"y") (.lcons .jnull .lnil))))
    = some (.jarr (.lcons (.jstr "x\"y") (.lcons .jnull .lnil))) := by rfl

/-! ## Decimal digits: printing and reading back -/

theorem digitToChar_toNat {d : Nat} (h : d < 10) : (digitToChar d).toNat = 48 + d := by
  interval_cases d <;> rfl

theorem isDigitC_digitToChar {d : Nat} (h : d < 10) : isDigitC (digitToChar d) = true := by
  interval_cases d <;> rfl

theorem isDigitC_bounds {c : Char} (h : isDigitC c = true) :
    48 ≤ c.toNat ∧ c.toNat ≤ 57 := by
  simpa [isDigitC] using h

theorem char_ne_of_toNat_ne {c d : Char} (h : c.toNat ≠ d.toNat) : c ≠ d :=
  fun he => h (he ▸ rfl)

theorem digit_char_ne {c : Char} (h : isDigitC c = true) {d : Char}
    (hd : (d.toNat < 48 || 57 < d.toNat) = true) : c ≠ d := by
  obtain ⟨h1, h2⟩ := isDigitC_bounds h
  simp only [Bool.or_eq_true, decide_eq_true_eq] at hd
  intro he
  subst he
  omega

theorem isWsC_false_of_digit {c : Char} (h : isDigitC c = true) : isWsC c = false := by
  simp only [isWsC, Bool.or_eq_false_iff, decide_eq_false_iff_not]
  exact ⟨⟨⟨digit_char_ne h (by decide), digit_char_ne h (by decide)⟩,
    digit_char_ne h (by decide)⟩, digit_char_ne h (by decide)⟩

theorem digit_not_special {c : Char} (h : isDigitC c = true) :
    c ≠ 'n' ∧ c ≠ 't' ∧ c ≠ 'f' ∧ c ≠ '"' ∧ c ≠ '[' ∧ c ≠ '{' ∧ c ≠ '-' :=
  ⟨digit_char_ne h (by decide), digit_char_ne h (by decide), digit_char_ne h (by decide),
   digit_char_ne h (by decide), digit_char_ne h (by decide), digit_char_ne h (by decide),
   digit_char_ne h (by decide)⟩

theorem natChars_acc (f : Nat) : ∀ (n : Nat) (acc : List Char),
    natChars f n acc = natChars f n [] ++ acc := by
  induction f with
  | zero => intro n acc; simp [natChars]
  | succ f ih =>
    intro n acc
    simp only [natChars]
    by_cases h : n < 10
    · simp [h]
    · simp only [h, if_false]
      rw [ih (n / 10) (digitToChar (n % 10) :: acc),
          ih (n / 10) [digitToChar (n % 10)]]
      simp

theorem natChars_fuel : ∀ (n f1 f2 : Nat), n < f1 → n < f2 →
    ∀ acc, natChars f1 n acc = natChars f2 n acc := by
  intro n
  induction n using Nat.strong_induction_on with
  | _ n ih =>
    intro f1 f2 h1 h2 acc
    match f1, h1 with
    | f1 + 1, _ =>
      match f2, h2 with
      | f2 + 1, _ =>
        simp only [natChars]
        by_cases h : n < 10
        · simp [h]
        · simp only [h, if_false]
          exact ih (n / 10) (by omega) f1 f2 (by omega) (by omega) _

theorem natChars_all_digits (f : Nat) : ∀ (n : Nat) (acc : List Char),
    (∀ c ∈ acc, isDigitC c = true) →
    ∀ c ∈ natChars f n acc, isDigitC c = true := by
  induction f with
  | zero => intro n acc hacc; simpa [natChars] using hacc
  | succ f ih =>
    intro n acc hacc c hc
    simp only [natChars] at hc
    by_cases h : n < 10
    · simp only [h, if_true] at hc
      rcases List.mem_cons.1 hc with rfl | hmem
      · exact isDigitC_digitToChar h
      · exact hacc c hmem
    · simp only [h, if_false] at hc
      refine ih (n / 10) _ ?_ c hc
      intro c2 hc2
      rcases List.mem_cons.1 hc2 with rfl | hmem
      · exact isDigitC_digitToChar (Nat.mod_lt n (by omega))
      · exact hacc c2 hmem

theorem natChars_ne_nil_acc (f : Nat) : ∀ (n : Nat) (acc : List Char),
    acc ≠ [] → natChars f n acc ≠ [] := by
  induction f with
  | zero => intro n acc h; simpa [natChars] using h
  | succ f ih =>
    intro n acc _
    simp only [natChars]
    by_cases h : n < 10
    · simp [h]
    · simp only [h, if_false]
      exact ih (n / 10) _ (by simp)

theorem natChars_ne_nil (n : Nat) : natChars (n + 1) n [] ≠ [] := by
  simp only [natChars]
  by_cases h : n < 10
  · simp [h]
  · simp only [h, if_false]
    exact natChars_ne_nil_acc n (n / 10) _ (by simp)

theorem digitsVal_append_digit (ds : List Char) (c : Char) :
    digitsVal (ds ++ [c]) = digitsVal ds * 10 + (c.toNat - 48) := by
  simp [digitsVal, List.foldl_append]

theorem digitsVal_natChars (n : Nat) : digitsVal (natChars (n + 1) n []) = n := by
  induction n using Nat.strong_induction_on with
  | _ n ih =>
    by_cases h : n < 10
    · simp only [natChars, h, if_true]
      simp [digitsVal, digitToChar_toNat h]
    · have hrec : natChars (n + 1) n [] = natChars n (n / 10) [digitToChar (n % 10)] := by
        simp [natChars, h]
      rw [hrec, natChars_acc,
          natChars_fuel (n / 10) n (n / 10 + 1) (by omega) (by omega),
          digitsVal_append_digit,
          ih (n / 10) (by omega),
          digitToChar_toNat (Nat.mod_lt n (by omega))]
      omega

/-- Head test used to keep the greedy digit scanner from overrunning. -/
def noDigitHead : List Char → Bool
  | [] => true
  | c :: _ => !(isDigitC c)

theorem spanDigits_append : ∀ (ds rest : List Char),
    (∀ c ∈ ds, isDigitC c = true) → noDigitHead rest = true →
    spanDigits (ds ++ rest) = (ds, rest) := by
  intro ds
  induction ds with
  | nil =>
    intro rest _ hrest
    cases rest with
    | nil => rfl
    | cons c t =>
      simp only [noDigitHead, Bool.not_eq_true'] at hrest
      simp [spanDigits, hrest]
  | cons c t ih =>
    intro rest hds hrest
    have hc : isDigitC c = true := hds c (List.mem_cons_self ..)
    have ih2 := ih rest (fun c2 h2 => hds c2 (List.mem_cons_of_mem c h2)) hrest
    simp only [List.cons_append, spanDigits, hc, if_true]
    simp only [List.append_eq] at *
    rw [ih2]

/-! ## String bodies -/

theorem parseStrBody_esc : ∀ (s rest : List Char),
    parseStrBody (escChars s ++ '"' :: rest) = some (s, rest) := by
  intro s
  induction s with
  | nil =>
    intro rest
    simp only [escChars, List.nil_append]
    rw [parseStrBody.eq_def]
    simp
  | cons c t ih =>
    intro rest
    simp only [escChars, escChar, List.append_assoc]
    by_cases h : c = '"' ∨ c = '\\'
    · rw [if_pos h]
      simp only [List.cons_append, List.nil_append]
      rw [parseStrBody.eq_def]
      simp only [if_neg (by decide : ¬('\\' : Char) = '"'), if_pos rfl]
      simp only [h, if_true, ih rest]
    · rw [if_neg h]
      simp only [List.cons_append, List.nil_append]
      rw [parseStrBody.eq_def]
      push_neg at h
      simp only [if_neg h.1, if_neg h.2, ih rest]

/-! ## Whitespace -/

theorem skipWs_cons_not_ws {c : Char} (h : isWsC c = false) (t : List Char) :
    skipWs (c :: t) = c :: t := by
  simp [skipWs, h]

theorem skipWs_cons_ws {c : Char} (h : isWsC c = true) (t : List Char) :
    skipWs (c :: t) = skipWs t := by
  simp [skipWs, h]

theorem parseVal_cons_ws {c : Char} (h : isWsC c = true) (f : Nat) (cs : List Char) :
    parseVal f (c :: cs) = parseVal f cs := by
  cases f with
  | zero => rfl
  | succ f => rw [parseVal, parseVal, skipWs_cons_ws h]

theorem parseItems_cons_ws {c : Char} (h : isWsC c = true) (f : Nat) (cs : List Char) :
    parseItems f (c :: cs) = parseItems f cs := by
  cases f with
  | zero => rfl
  | succ f => rw [parseItems, parseItems, parseVal_cons_ws h]

theorem parsePairs_cons_ws {c : Char} (h : isWsC c = true) (f : Nat) (acc : JFields)
    (cs : List Char) : parsePairs f acc (c :: cs) = parsePairs f acc cs := by
  cases f with
  | zero => rfl
  | succ f => rw [parsePairs, parsePairs, skipWs_cons_ws h]

/-! ## Parser fuel requirements -/

mutual

def needV : JVal → Nat
  | .jnull => 1
  | .jbool _ => 1
  | .jnum _ => 1
  | .jstr _ => 1
  | .jarr xs => 1 + needL xs
  | .jobj fs => 1 + needF fs
termination_by structural v => v

def needL : JList → Nat
  | .lnil => 1
  | .lcons v t => 1 + max (needV v) (needL t)
termination_by structural t => t

def needF : JFields → Nat
  | .fnil => 1
  | .fcons _ v t => 1 + max (needV v) (needF t)
termination_by structural t => t

end

/-! ## Keys of JSON objects -/

def hasKey : JFields → String → Bool
  | .fnil, _ => false
  | .fcons k _ t, key => k = key || hasKey t key

/-- No key occurs twice at this level. -/
def nodupKeys : JFields → Bool
  | .fnil => true
  | .fcons k _ t => !(hasKey t k) && nodupKeys t

mutual

/-- Every object anywhere inside the value has pairwise-distinct keys (always
true of values produced by `json.loads`, i.e. Python dicts). -/
def goodV : JVal → Bool
  | .jnull => true
  | .jbool _ => true
  | .jnum _ => true
  | .jstr _ => true
  | .jarr xs => goodL xs
  | .jobj fs => nodupKeys fs && goodF fs
termination_by structural v => v

def goodL : JList → Bool
  | .lnil => true
  | .lcons v t => goodV v && goodL t
termination_by structural t => t

def goodF : JFields → Bool
  | .fnil => true
  | .fcons _ v t => goodV v && goodF t
termination_by structural t => t

end

def fappend : JFields → JFields → JFields
  | .fnil, b => b
  | .fcons k v t, b => .fcons k v (fappend t b)

/-- Every key of the second field list is absent from the first. -/
def disjKeys : JFields → JFields → Bool
  | _, .fnil => true
  | acc, .fcons k _ t => !(hasKey acc k) && disjKeys acc t

theorem fappend_fnil : ∀ a : JFields, fappend a .fnil = a
  | .fnil => rfl
  | .fcons k v t => by rw [fappend, fappend_fnil t]

theorem fappend_assoc : ∀ a b c : JFields,
    fappend (fappend a b) c = fappend a (fappend b c)
  | .fnil, _, _ => rfl
  | .fcons k v t, b, c => by rw [fappend, fappend, fappend, fappend_assoc t b c]

theorem insertPy_fresh {k : String} {v : JVal} :
    ∀ (acc : JFields), hasKey acc k = false →
    insertPy acc k v = fappend acc (.fcons k v .fnil)
  | .fnil, _ => rfl
  | .fcons k2 v2 t, h => by
    simp only [hasKey, Bool.or_eq_false_iff, decide_eq_false_iff_not] at h
    rw [insertPy, if_neg h.1, fappend, insertPy_fresh t h.2]

theorem hasKey_fappend : ∀ (a : JFields) (b : JFields) (k : String),
    hasKey (fappend a b) k = (hasKey a k || hasKey b k)
  | .fnil, b, k => by simp [fappend, hasKey]
  | .fcons k2 v2 t, b, k => by
    simp [fappend, hasKey, hasKey_fappend t b k, Bool.or_assoc]

theorem disjKeys_fnil_left : ∀ t : JFields, disjKeys .fnil t = true
  | .fnil => rfl
  | .fcons k v t => by
    rw [disjKeys, disjKeys_fnil_left t]
    rfl

theorem disjKeys_fappend_single {k : String} {v : JVal} {acc : JFields} :
    ∀ (t : JFields), disjKeys acc t = true → hasKey t k = false →
    disjKeys (fappend acc (.fcons k v .fnil)) t = true
  | .fnil, _, _ => rfl
  | .fcons k2 v2 t2, hd, hk => by
    simp only [disjKeys, Bool.and_eq_true, Bool.not_eq_true'] at hd
    simp only [hasKey, Bool.or_eq_false_iff, decide_eq_false_iff_not] at hk
    simp only [disjKeys, Bool.and_eq_true, Bool.not_eq_true']
    refine ⟨?_, disjKeys_fappend_single t2 hd.2 hk.2⟩
    rw [hasKey_fappend, hd.1]
    simp only [hasKey, Bool.false_or, Bool.or_eq_false_iff]
    exact ⟨decide_eq_false (fun he => hk.1 he.symm), trivial⟩

theorem string_mk_data : ∀ s : String, (⟨s.data⟩ : String) = s
  | ⟨_⟩ => rfl

/-! ## Head shape of printed values -/

theorem natChars_head (n : Nat) :
    ∃ c t2, natChars (n + 1) n [] = c :: t2 ∧ isDigitC c = true := by
  match h : natChars (n + 1) n [] with
  | [] => exact absurd h (natChars_ne_nil n)
  | c :: t2 =>
    refine ⟨c, t2, rfl, ?_⟩
    refine natChars_all_digits (n + 1) n [] (by simp) c ?_
    rw [h]
    exact List.mem_cons_self ..

theorem dumpVal_head (v : JVal) :
    ∃ c t2, dumpVal v = c :: t2 ∧ isWsC c = false ∧ c ≠ ']' ∧ c ≠ '}' := by
  cases v with
  | jnull => refine ⟨'n', _, rfl, ?_, ?_, ?_⟩ <;> decide
  | jbool b =>
    cases b
    · refine ⟨'f', _, rfl, ?_, ?_, ?_⟩ <;> decide
    · refine ⟨'t', _, rfl, ?_, ?_, ?_⟩ <;> decide
  | jnum i =>
    by_cases h : i < 0
    · refine ⟨'-', natChars (i.natAbs + 1) i.natAbs [],
        by simp [dumpVal, numChars, h], ?_, ?_, ?_⟩ <;> decide
    · obtain ⟨c, t2, he, hd⟩ := natChars_head i.toNat
      refine ⟨c, t2, by simp [dumpVal, numChars, h, he], isWsC_false_of_digit hd,
        digit_char_ne hd (by decide), digit_char_ne hd (by decide)⟩
  | jstr s => refine ⟨'"', _, rfl, ?_, ?_, ?_⟩ <;> decide
  | jarr xs =>
    cases xs
    · refine ⟨'[', _, rfl, ?_, ?_, ?_⟩ <;> decide
    · refine ⟨'[', _, rfl, ?_, ?_, ?_⟩ <;> decide
  | jobj fs =>
    cases fs
    · refine ⟨'{', _, rfl, ?_, ?_, ?_⟩ <;> decide
    · refine ⟨'{', _, rfl, ?_, ?_, ?_⟩ <;> decide

/-! ## The parser inverts the printer -/

theorem one_le_needV (v : JVal) : 1 ≤ needV v := by
  cases v <;> simp [needV]

theorem one_le_needL (t : JList) : 1 ≤ needL t := by
  cases t <;> simp [needL]

theorem one_le_needF (t : JFields) : 1 ≤ needF t := by
  cases t <;> simp [needF]

mutual

theorem parseVal_dump (v : JVal) (f : Nat) (rest : List Char)
    (hf : needV v ≤ f) (hrest : noDigitHead rest = true) (hgood : goodV v = true) :
    parseVal f (dumpVal v ++ rest) = some (v, rest) := by
  match f, hf with
  | 0, hf => exact absurd hf (by have := one_le_needV v; omega)
  | f + 1, hf =>
    cases v with
    | jnull =>
      rw [show dumpVal .jnull = ['n', 'u', 'l', 'l'] from rfl, parseVal]
      simp only [List.cons_append, List.nil_append]
      rw [skipWs_cons_not_ws (by decide)]
      simp
    | jbool b =>
      cases b with
      | true =>
        rw [show dumpVal (.jbool true) = ['t', 'r', 'u', 'e'] from rfl, parseVal]
        simp only [List.cons_append, List.nil_append]
        rw [skipWs_cons_not_ws (by decide)]
        simp
      | false =>
        rw [show dumpVal (.jbool false) = ['f', 'a', 'l', 's', 'e'] from rfl, parseVal]
        simp only [List.cons_append, List.nil_append]
        rw [skipWs_cons_not_ws (by decide)]
        simp
    | jstr s =>
      rw [show dumpVal (.jstr s) = '"' :: (escChars s.data ++ ['"']) from rfl, parseVal]
      simp only [List.cons_append, List.nil_append, List.append_assoc]
      rw [skipWs_cons_not_ws (by decide)]
      simp [parseStrBody_esc, string_mk_data]
    | jnum i =>
      by_cases hneg : i < 0
      · rw [show dumpVal (.jnum i) = numChars i from rfl,
            show numChars i = '-' :: natChars (i.natAbs + 1) i.natAbs [] from by
              simp [numChars, hneg]]
        obtain ⟨c, t2, he, hd⟩ := natChars_head i.natAbs
        have hspan : spanDigits (natChars (i.natAbs + 1) i.natAbs [] ++ rest)
            = (natChars (i.natAbs + 1) i.natAbs [], rest) :=
          spanDigits_append _ _ (natChars_all_digits _ _ _ (by simp)) hrest
        rw [he] at hspan ⊢
        rw [parseVal]
        simp only [List.cons_append] at hspan ⊢
        rw [skipWs_cons_not_ws (by decide)]
        simp [hspan]
        rw [← he, digitsVal_natChars]
        omega
      · rw [show dumpVal (.jnum i) = numChars i from rfl,
            show numChars i = natChars (i.toNat + 1) i.toNat [] from by
              simp [numChars, hneg]]
        obtain ⟨c, t2, he, hd⟩ := natChars_head i.toNat
        have hspan : spanDigits (natChars (i.toNat + 1) i.toNat [] ++ rest)
            = (natChars (i.toNat + 1) i.toNat [], rest) :=
          spanDigits_append _ _ (natChars_all_digits _ _ _ (by simp)) hrest
        rw [he] at hspan ⊢
        rw [parseVal]
        simp only [List.cons_append] at hspan ⊢
        rw [skipWs_cons_not_ws (isWsC_false_of_digit hd)]
        obtain ⟨hn2, ht2, hf2, hq2, hb2, hc2, hm2⟩ := digit_not_special hd
        simp [hn2, ht2, hf2, hq2, hb2, hc2, hm2, hd, hspan]
        rw [← he, digitsVal_natChars]
        omega
    | jarr xs =>
      cases xs with
      | lnil =>
        rw [show dumpVal (.jarr .lnil) = ['[', ']'] from rfl, parseVal]
        simp only [List.cons_append, List.nil_append]
        rw [skipWs_cons_not_ws (by decide)]
        simp [skipWs, isWsC]
      | lcons v t =>
        have hfl : needL (.lcons v t) ≤ f := by
          simp only [needV] at hf
          omega
        have hgl : goodL (.lcons v t) = true := by
          simpa [goodV] using hgood
        have hitems := parseItems_dump v t f rest hfl hrest hgl
        obtain ⟨c, t2, he, hws, hbr, hbc⟩ := dumpVal_head v
        rw [show dumpVal (.jarr (.lcons v t)) = '[' :: ((dumpVal v ++ dumpItems t) ++ [']'])
            from rfl, parseVal]
        simp only [List.cons_append, List.nil_append, List.append_assoc]
        rw [skipWs_cons_not_ws (by decide)]
        rw [he] at hitems ⊢
        simp only [List.cons_append] at hitems ⊢
        rw [skipWs_cons_not_ws hws]
        simp [hbr, hitems]
    | jobj fs =>
      cases fs with
      | fnil =>
        rw [show dumpVal (.jobj .fnil) = ['{', '}'] from rfl, parseVal]
        simp only [List.cons_append, List.nil_append]
        rw [skipWs_cons_not_ws (by decide)]
        simp [skipWs, isWsC]
      | fcons k v t =>
        have hff : needF (.fcons k v t) ≤ f := by
          simp only [needV] at hf
          omega
        have hgf : goodF (.fcons k v t) = true := by
          simp only [goodV, Bool.and_eq_true] at hgood
          exact hgood.2
        have hnd : nodupKeys (.fcons k v t) = true := by
          simp only [goodV, Bool.and_eq_true] at hgood
          exact hgood.1
        have hpairs := parsePairs_dump k v t f .fnil rest hff hrest hgf hnd
          (disjKeys_fnil_left _)
        rw [show dumpVal (.jobj (.fcons k v t))
            = '{' :: ((strChars k ++ ':' :: ' ' :: dumpVal v ++ dumpPairs t) ++ ['}'])
            from rfl, parseVal]
        simp only [strChars, List.cons_append, List.nil_append, List.append_assoc]
        rw [skipWs_cons_not_ws (by decide)]
        simp only [fappend] at hpairs
        simp [skipWs, isWsC, hpairs]
termination_by sizeOf v

theorem parseItems_dump (v : JVal) (t : JList) (f : Nat) (rest : List Char)
    (hf : needL (.lcons v t) ≤ f) (hrest : noDigitHead rest = true)
    (hgood : goodL (.lcons v t) = true) :
    parseItems f (dumpVal v ++ (dumpItems t ++ ']' :: rest)) = some (.lcons v t, rest) := by
  match f, hf with
  | 0, hf => exact absurd hf (by have := one_le_needL (.lcons v t); omega)
  | f + 1, hf =>
    have hm1 := Nat.le_max_left (needV v) (needL t)
    have hm2 := Nat.le_max_right (needV v) (needL t)
    simp only [needL] at hf
    simp only [goodL, Bool.and_eq_true] at hgood
    have hrest1 : noDigitHead (dumpItems t ++ ']' :: rest) = true := by
      cases t <;> simp [dumpItems, noDigitHead, isDigitC]
    have hv := parseVal_dump v f (dumpItems t ++ ']' :: rest) (by omega) hrest1 hgood.1
    rw [parseItems, hv]
    cases t with
    | lnil =>
      simp [dumpItems, skipWs, isWsC]
    | lcons v2 t2 =>
      have hrec := parseItems_dump v2 t2 f rest (by omega) hrest hgood.2
      simp only [dumpItems, List.cons_append, List.append_assoc]
      rw [skipWs_cons_not_ws (by decide)]
      simp [parseItems_cons_ws (by decide : isWsC ' ' = true), hrec]
termination_by 1 + sizeOf v + sizeOf t

theorem parsePairs_dump (k : String) (v : JVal) (t : JFields) (f : Nat) (acc : JFields)
    (rest : List Char) (hf : needF (.fcons k v t) ≤ f) (hrest : noDigitHead rest = true)
    (hgood : goodF (.fcons k v t) = true) (hnodup : nodupKeys (.fcons k v t) = true)
    (hdisj : disjKeys acc (.fcons k v t) = true) :
    parsePairs f acc ('"' :: (escChars k.data
        ++ '"' :: ':' :: ' ' :: (dumpVal v ++ (dumpPairs t ++ '}' :: rest))))
      = some (fappend acc (.fcons k v t), rest) := by
  match f, hf with
  | 0, hf => exact absurd hf (by have := one_le_needF (.fcons k v t); omega)
  | f + 1, hf =>
    have hm1 := Nat.le_max_left (needV v) (needF t)
    have hm2 := Nat.le_max_right (needV v) (needF t)
    simp only [needF] at hf
    simp only [goodF, Bool.and_eq_true] at hgood
    simp only [nodupKeys, Bool.and_eq_true, Bool.not_eq_true'] at hnodup
    simp only [disjKeys, Bool.and_eq_true, Bool.not_eq_true'] at hdisj
    have hrest1 : noDigitHead (dumpPairs t ++ '}' :: rest) = true := by
      cases t <;> simp [dumpPairs, noDigitHead, isDigitC]
    have hv := parseVal_dump v f (dumpPairs t ++ '}' :: rest) (by omega) hrest1 hgood.1
    have hstr := parseStrBody_esc k.data
      (':' :: ' ' :: (dumpVal v ++ (dumpPairs t ++ '}' :: rest)))
    have hins := insertPy_fresh (k := k) (v := v) acc hdisj.1
    rw [parsePairs]
    rw [skipWs_cons_not_ws (by decide)]
    cases t with
    | fnil =>
      simp only [dumpPairs, List.nil_append] at hstr hv ⊢
      simp [hstr, skipWs, isWsC, parseVal_cons_ws (by decide : isWsC ' ' = true), hv,
        string_mk_data, hins, fappend]
    | fcons k2 v2 t2 =>
      have hdisj2 : disjKeys (insertPy acc k v) (.fcons k2 v2 t2) = true := by
        rw [hins]
        exact disjKeys_fappend_single _ hdisj.2 hnodup.1
      have hrec := parsePairs_dump k2 v2 t2 f (insertPy acc k v) rest (by omega) hrest
        hgood.2 hnodup.2 hdisj2
      have hcomb : fappend (insertPy acc k v) (.fcons k2 v2 t2)
          = fappend acc (.fcons k v (.fcons k2 v2 t2)) := by
        rw [hins, fappend_assoc]
        rfl
      simp only [dumpPairs, List.cons_append, List.append_assoc] at hstr hv hrec ⊢
      simp [hstr, skipWs, isWsC, parseVal_cons_ws (by decide : isWsC ' ' = true), hv,
        string_mk_data, parsePairs_cons_ws (by decide : isWsC ' ' = true),
        hrec, hcomb]
      simp only [strChars, List.cons_append, List.nil_append, List.append_assoc]
      simp [hrec, hcomb]
termination_by 1 + sizeOf v + sizeOf t

end

/-! ## Fuel bounds and the top-level roundtrip -/

theorem dumpVal_length_pos (v : JVal) : 1 ≤ (dumpVal v).length := by
  obtain ⟨c, t2, he, _⟩ := dumpVal_head v
  simp [he]

mutual

theorem needV_le_len (v : JVal) : needV v ≤ (dumpVal v).length := by
  cases v with
  | jnull => simp [needV, dumpVal]
  | jbool b => cases b <;> simp [needV, dumpVal]
  | jnum i =>
    have h := dumpVal_length_pos (.jnum i)
    simp only [needV]
    omega
  | jstr s => simp [needV, dumpVal, strChars]
  | jarr xs =>
    cases xs with
    | lnil => simp [needV, needL, dumpVal]
    | lcons v t =>
      have hb := needL_le_len v t
      simp only [needV, dumpVal, List.length_cons, List.length_append]
      omega
  | jobj fs =>
    cases fs with
    | fnil => simp [needV, needF, dumpVal]
    | fcons k v t =>
      have hb := needF_le_len k v t
      simp only [needV, dumpVal, List.length_cons, List.length_append, strChars]
      omega
termination_by sizeOf v

theorem needL_le_len (v : JVal) (t : JList) :
    needL (.lcons v t) ≤ (dumpVal v).length + (dumpItems t).length + 1 := by
  have hv := needV_le_len v
  have hp := dumpVal_length_pos v
  cases t with
  | lnil =>
    have hmax : max (needV v) (needL .lnil) ≤ (dumpVal v).length := by
      refine max_le hv ?_
      simpa [needL] using hp
    simp only [needL, dumpItems, List.length_nil]
    omega
  | lcons v2 t2 =>
    have hrec := needL_le_len v2 t2
    have hlen : (dumpItems (.lcons v2 t2)).length
        = 2 + (dumpVal v2).length + (dumpItems t2).length := by
      simp only [dumpItems, List.length_cons, List.length_append]
      omega
    have hmax : max (needV v) (needL (.lcons v2 t2))
        ≤ (dumpVal v).length + (dumpItems (.lcons v2 t2)).length := by
      refine max_le (by omega) (by omega)
    simp only [needL] at hmax ⊢
    omega
termination_by 1 + sizeOf v + sizeOf t

theorem needF_le_len (k : String) (v : JVal) (t : JFields) :
    needF (.fcons k v t) ≤ (dumpVal v).length + (dumpPairs t).length + 1 := by
  have hv := needV_le_len v
  have hp := dumpVal_length_pos v
  cases t with
  | fnil =>
    have hmax : max (needV v) (needF .fnil) ≤ (dumpVal v).length := by
      refine max_le hv ?_
      simpa [needF] using hp
    simp only [needF, dumpPairs, List.length_nil]
    omega
  | fcons k2 v2 t2 =>
    have hrec := needF_le_len k2 v2 t2
    have hlen : (dumpPairs (.fcons k2 v2 t2)).length
        = 6 + (escChars k2.data).length + (dumpVal v2).length + (dumpPairs t2).length := by
      simp only [dumpPairs, strChars, List.length_cons, List.length_append,
        List.length_singleton, List.length_nil]
      omega
    have hmax : max (needV v) (needF (.fcons k2 v2 t2))
        ≤ (dumpVal v).length + (dumpPairs (.fcons k2 v2 t2)).length := by
      refine max_le (by omega) (by omega)
    rw [show needF (.fcons k v (.fcons k2 v2 t2))
        = 1 + max (needV v) (needF (.fcons k2 v2 t2)) from rfl]
    omega
termination_by 1 + sizeOf v + sizeOf t

end

/-- The parser inverts the printer: `json.loads (json.dumps v) = v` for every
value whose objects have duplicate-free keys (always true of values that came
out of Python dicts). -/
theorem loads_dumps {v : JVal} (hgood : goodV v = true) : loads (dumps v) = some v := by
  have hb := needV_le_len v
  have h := parseVal_dump v ((dumpVal v).length + 1) [] (by omega) (by decide) hgood
  rw [List.append_nil] at h
  simp only [loads, dumps]
  rw [h]
  simp [skipWs]

/-! # The Lambda handler (`src/app.py`)

The two stores are explicit state; the reachability of DynamoDB and the
success of each Valkey operation on a given request are oracle booleans
(`Beh`), since `store_to_valkey`/`get_from_valkey` collapse every
client/transport/timeout failure into `False`/`None`.  Python exceptions that
escape a handler are modelled with `Except PyErr`; they only arise before any
state change, so `lambda_handler` returns the unchanged state on that path,
as the real code does. -/

/-- Python truthiness of a JSON value. -/
def truthy : JVal → Bool
  | .jnull => false
  | .jbool b => b
  | .jnum n => !(n == 0)
  | .jstr s => !(s == "")
  | .jarr .lnil => false
  | .jarr _ => true
  | .jobj .fnil => false
  | .jobj _ => true

def isObj : JVal → Bool
  | .jobj _ => true
  | _ => false

/-- Association-list lookup (string-keyed mapping). -/
def getA {α : Type} : List (String × α) → String → Option α
  | [], _ => none
  | (k, v) :: t, key => if k = key then some v else getA t key

/-- Association-list store: overwrite in place or append. -/
def setA {α : Type} : List (String × α) → String → α → List (String × α)
  | [], key, v => [(key, v)]
  | (k, w) :: t, key, v => if k = key then (key, v) :: t else (k, w) :: setA t key v

/-- `body.get(name)` on a parsed JSON object (parsed objects have
duplicate-free keys, so first match is dict lookup). -/
def fget : JFields → String → Option JVal
  | .fnil, _ => none
  | .fcons k v t, key => if k = key then some v else fget t key

/-- System state: the DynamoDB table `config_table` (key → the record's
`value` attribute) and the Valkey cache (key → stored text). -/
structure St where
  durable : List (String × JVal)
  cache : List (String × String)
deriving DecidableEq

/-- An API Gateway event field that can be missing or JSON null. -/
inductive EvField (α : Type) where
  | absent : EvField α
  | null : EvField α
  | given : α → EvField α

/-- The parts of the API Gateway event the handler reads. -/
structure Event where
  httpMethod : EvField String
  body : EvField String
  queryStringParameters : EvField (List (String × String))

/-- Exceptions that can escape a request handler. -/
inductive PyErr where
  | jsonDecodeError
  | otherError
deriving DecidableEq

structure Resp where
  statusCode : Nat
  body : JVal
deriving DecidableEq

/-- Per-request outcome oracle for the external stores. -/
structure Beh where
  dynOk : Bool
  dynOk2 : Bool
  cacheOk : Bool
  cacheOk2 : Bool

def errBody (msg : String) : JVal := .jobj (.fcons "error" (.jstr msg) .fnil)

def resp400 (msg : String) : Resp := ⟨400, errBody msg⟩

/-- `store_to_valkey` (lines 62-82): on success the cache holds
`json.dumps(config_value)` under the key; any failure returns `False`
and leaves the cache untouched. -/
def store_to_valkey (ok : Bool) (st : St) (key : String) (value : JVal) : Bool × St :=
  if ok then (true, ⟨st.durable, setA st.cache key (dumps value)⟩) else (false, st)

/-- `get_from_valkey` (lines 84-107): `json.loads` of the cached text on
success; `None` on connection failure, timeout, missing key, or an
undecodable payload. -/
def get_from_valkey (ok : Bool) (st : St) (key : String) : Option JVal :=
  if ok then
    match getA st.cache key with
    | none => none
    | some text => loads text
  else none

/-- `event.get("body", "{}")` followed by `json.loads`: an absent body parses
as `{}`; a JSON-null body makes `json.loads(None)` raise a `TypeError`, which
the handlers do not catch. -/
def bodyString : EvField String → Except PyErr String
  | .absent => .ok "\x7b\x7d"
  | .null => .error .otherError
  | .given s => .ok s

/-- `handle_post` (lines 143-196). -/
def handle_post (beh : Beh) (st : St) (ev : Event) : Except PyErr (Resp × St) :=
  match bodyString ev.body with
  | .error e => .error e
  | .ok s =>
    match loads s with
    | none => .ok (resp400 "Invalid JSON body", st)
    | some bv =>
      match bv with
      | .jobj bf =>
        match fget bf "config_key", fget bf "config_value" with
        | some ck, some cv =>
          if !(truthy ck) || !(truthy cv) then
            .ok (resp400 "config_key and config_value are required", st)
          else
            match ck with
            | .jstr k =>
              if beh.dynOk then
                match getA st.durable k with
                | some _ => .ok (⟨409, errBody "Item already exists"⟩, st)
                | none =>
                  let st1 : St := ⟨setA st.durable k cv, st.cache⟩
                  let r := store_to_valkey beh.cacheOk st1 k cv
                  .ok (⟨if r.1 then 200 else 207,
                    .jobj (.fcons "message" (.jstr (if r.1 then "Stored successfully"
                        else "Stored in DynamoDB but failed in Valkey"))
                      (.fcons "stored_in_dynamodb" (.jbool true)
                        (.fcons "stored_in_valkey" (.jbool r.1) .fnil)))⟩, r.2)
              else .ok (⟨500, errBody "Failed to store in DynamoDB"⟩, st)
            | _ => .ok (⟨500, errBody "Failed to store in DynamoDB"⟩, st)
        | _, _ => .ok (resp400 "config_key and config_value are required", st)
      | _ => .error .otherError

/-- `params.get("config_key") or params.get("key")`. -/
def pyOrStr (a b : Option String) : Option String :=
  match a with
  | some s => if s = "" then b else some s
  | none => b

/-- `handle_get` (lines 198-253). -/
def handle_get (beh : Beh) (st : St) (ev : Event) : Except PyErr (Resp × St) :=
  match ev.queryStringParameters with
  | .null => .error .otherError
  | .absent => .ok (resp400 "Missing config_key parameter", st)
  | .given ps =>
    match pyOrStr (getA ps "config_key") (getA ps "key") with
    | none => .ok (resp400 "Missing config_key parameter", st)
    | some k =>
      if k = "" then .ok (resp400 "Missing config_key parameter", st)
      else
        match get_from_valkey beh.cacheOk st k with
        | some v =>
          .ok (⟨200, .jobj (.fcons "key" (.jstr k)
            (.fcons "value" v (.fcons "source" (.jstr "valkey") .fnil)))⟩, st)
        | none =>
          if beh.dynOk then
            match getA st.durable k with
            | some v =>
              let r := store_to_valkey beh.cacheOk2 st k v
              .ok (⟨200, .jobj (.fcons "key" (.jstr k)
                (.fcons "value" v (.fcons "source" (.jstr "dynamodb") .fnil)))⟩, r.2)
            | none => .ok (⟨404, errBody "Item not found"⟩, st)
          else .ok (⟨500, errBody "Failed to retrieve item"⟩, st)

/-! ### PATCH: the update expression and its DynamoDB semantics -/

def natRepr (n : Nat) : String := ⟨natChars (n + 1) n []⟩

/-- The loop body of lines 280-284: `"#v.{k} = :val{i}, "` per field, the raw
field name concatenated into the path. -/
def exprParts : JFields → Nat → String
  | .fnil, _ => ""
  | .fcons k _ t, i => "#v." ++ k ++ " = :val" ++ natRepr i ++ ", " ++ exprParts t (i + 1)

def dropCommaSpace : List Char → List Char
  | [] => []
  | c :: t => if c = ',' || c = ' ' then dropCommaSpace t else c :: t

/-- Python `str.rstrip(", ")`. -/
def rstripCommaSpace (s : String) : String := ⟨(dropCommaSpace s.data.reverse).reverse⟩

/-- The `update_expression` string built by `handle_patch` (lines 276-286). -/
def buildUpdateExpr (fields : JFields) : String :=
  rstripCommaSpace ("SET " ++ exprParts fields 0)

/-- `expression_attribute_values` built by the same loop. -/
def exprAttrValues : JFields → Nat → List (String × JVal)
  | .fnil, _ => []
  | .fcons _ v t, i => (":val" ++ natRepr i, v) :: exprAttrValues t (i + 1)

def plainChar (c : Char) : Bool := c.isAlpha || c.isDigit || c = '_'

/-- Field names whose raw concatenation into `#v.{k}` still forms a valid
DynamoDB document path component (no reserved-word check: DynamoDB rejects
even more names than this). -/
def plainName (s : String) : Bool :=
  match s.data with
  | [] => false
  | c :: _ => !(c.isDigit) && s.data.all plainChar

def plainNames : JFields → Bool
  | .fnil => true
  | .fcons k _ t => plainName k && plainNames t

/-- `SET #v.f = :val` merges the patch fields into the stored map, each entry
overwriting or creating the same-named top-level field. -/
def applyPatch : JFields → JFields → JFields
  | stored, .fnil => stored
  | stored, .fcons k v t => applyPatch (insertPy stored k v) t

inductive UpdResult where
  | validationError
  | condFail
  | updated (newDurable : List (String × JVal)) (merged : JFields)

/-- DynamoDB `update_item` of lines 288-295: an empty patch builds the invalid
expression `"SET"` and a non-plain field name a malformed document path, both
rejected as `ValidationException` (→ generic 500); the condition
`attribute_exists(#key)` fails on an absent key (→ 404); a document path into
a non-map `value` also fails validation; otherwise the fields are merged
atomically. -/
def dynUpdate (durable : List (String × JVal)) (k : String) (patch : JFields) :
    UpdResult :=
  if patch = .fnil || !(plainNames patch) then .validationError
  else
    match getA durable k with
    | none => .condFail
    | some stored =>
      match stored with
      | .jobj fs =>
        let merged := applyPatch fs patch
        .updated (setA durable k (.jobj merged)) merged
      | _ => .validationError

/-- `handle_patch` (lines 255-331). -/
def handle_patch (beh : Beh) (st : St) (ev : Event) : Except PyErr (Resp × St) :=
  match bodyString ev.body with
  | .error e => .error e
  | .ok s =>
    match loads s with
    | none => .ok (resp400 "Invalid JSON body", st)
    | some bv =>
      match bv with
      | .jobj bf =>
        match fget bf "config_key", fget bf "config_value" with
        | some ck, some (.jobj patch) =>
          if !(truthy ck) then
            .ok (resp400 "config_key and config_value (object) are required", st)
          else
            match ck with
            | .jstr k =>
              if beh.dynOk then
                match dynUpdate st.durable k patch with
                | .validationError =>
                  .ok (⟨500, errBody "Failed to update in DynamoDB"⟩, st)
                | .condFail => .ok (⟨404, errBody "Item not found"⟩, st)
                | .updated newDur merged =>
                  let st1 : St := ⟨newDur, st.cache⟩
                  if beh.dynOk2 then
                    let r := store_to_valkey beh.cacheOk st1 k (.jobj merged)
                    .ok (⟨if r.1 then 200 else 207,
                      .jobj (.fcons "message" (.jstr (if r.1 then "Updated successfully"
                          else "Updated in DynamoDB but failed in Valkey"))
                        (.fcons "updated_in_dynamodb" (.jbool true)
                          (.fcons "updated_in_valkey" (.jbool r.1) .fnil)))⟩, r.2)
                  else .ok (⟨500, errBody "Failed to retrieve current value"⟩, st1)
              else .ok (⟨500, errBody "Failed to update in DynamoDB"⟩, st)
            | _ => .ok (⟨500, errBody "Failed to update in DynamoDB"⟩, st)
        | _, _ =>
          .ok (resp400 "config_key and config_value (object) are required", st)
      | _ => .error .otherError

/-- `str.upper` for the ASCII method names (character-wise uppercase). -/
def pyUpper (s : String) : String := ⟨s.data.map Char.toUpper⟩

/-- The method string `event.get("httpMethod", "").upper()` of line 114,
computed BEFORE the `try` of line 116: an absent `httpMethod` defaults to
`""`, a JSON-null one makes `.upper()` raise `AttributeError`
(`NoneType` has no `upper`). -/
def methodOf : EvField String → Except PyErr String
  | .null => .error .otherError
  | .absent => .ok (pyUpper "")
  | .given m => .ok (pyUpper m)

/-- The `try` body of lines 116-127: dispatch on the computed method,
unknown methods answered 405. -/
def dispatch (beh : Beh) (st : St) (ev : Event) (method : String) :
    Except PyErr (Resp × St) :=
  if method = "POST" then handle_post beh st ev
  else if method = "GET" then handle_get beh st ev
  else if method = "PATCH" then handle_patch beh st ev
  else .ok (⟨405, errBody "Method not allowed"⟩, st)

/-- `lambda_handler` (lines 110-140).  The method computation of line 114
runs before the `try` of line 116, so its `AttributeError` propagates out of
the handler uncaught (`.error`); exceptions raised inside the `try` are
caught and mapped to a 400 response (`json.JSONDecodeError`) or a 500
response (any other exception). -/
def lambda_handler (beh : Beh) (st : St) (ev : Event) : Except PyErr (Resp × St) :=
  match methodOf ev.httpMethod with
  | .error e => .error e
  | .ok method =>
    match dispatch beh st ev method with
    | .ok r => .ok r
    | .error .jsonDecodeError => .ok (⟨400, errBody "Invalid JSON format"⟩, st)
    | .error .otherError => .ok (⟨500, errBody "Internal server error"⟩, st)

/-! ## Path equations for the handlers -/

/-- Response body `handle_post` builds on durable success. -/
def postRespBody (ok : Bool) : JVal :=
  .jobj (.fcons "message" (.jstr (if ok then "Stored successfully"
      else "Stored in DynamoDB but failed in Valkey"))
    (.fcons "stored_in_dynamodb" (.jbool true)
      (.fcons "stored_in_valkey" (.jbool ok) .fnil)))

/-- Response body `handle_patch` builds on durable success. -/
def patchRespBody (ok : Bool) : JVal :=
  .jobj (.fcons "message" (.jstr (if ok then "Updated successfully"
      else "Updated in DynamoDB but failed in Valkey"))
    (.fcons "updated_in_dynamodb" (.jbool true)
      (.fcons "updated_in_valkey" (.jbool ok) .fnil)))

/-- Response body of a GET hit. -/
def getRespBody (k : String) (v : JVal) (source : String) : JVal :=
  .jobj (.fcons "key" (.jstr k) (.fcons "value" v (.fcons "source" (.jstr source) .fnil)))

/-- Field of a response body (for reading `value`, `source`, flags...). -/
def respField (r : Resp) (name : String) : Option JVal :=
  match r.body with
  | .jobj bf => fget bf name
  | _ => none

theorem handle_post_create_eq (beh : Beh) (st : St) (ev : Event) (bodyStr : String)
    (bf : JFields) (k : String) (cv : JVal)
    (hb : ev.body = .given bodyStr) (hl : loads bodyStr = some (.jobj bf))
    (hk : fget bf "config_key" = some (.jstr k)) (hv : fget bf "config_value" = some cv)
    (hkt : k ≠ "") (hvt : truthy cv = true)
    (hdyn : beh.dynOk = true) (habs : getA st.durable k = none) :
    handle_post beh st ev
      = .ok (⟨if beh.cacheOk then 200 else 207, postRespBody beh.cacheOk⟩,
        ⟨setA st.durable k cv,
         if beh.cacheOk then setA st.cache k (dumps cv) else st.cache⟩) := by
  have hkb : (k == "") = false := beq_eq_false_iff_ne.mpr hkt
  have hkt2 : truthy (.jstr k) = true := by simp [truthy, hkb]
  cases hco : beh.cacheOk <;>
    simp [handle_post, hb, bodyString, hl, hk, hv, hkt2, hvt, hdyn, habs,
      store_to_valkey, hco, postRespBody]

theorem handle_post_conflict_eq (beh : Beh) (st : St) (ev : Event) (bodyStr : String)
    (bf : JFields) (k : String) (cv w : JVal)
    (hb : ev.body = .given bodyStr) (hl : loads bodyStr = some (.jobj bf))
    (hk : fget bf "config_key" = some (.jstr k)) (hv : fget bf "config_value" = some cv)
    (hkt : k ≠ "") (hvt : truthy cv = true)
    (hdyn : beh.dynOk = true) (hpresent : getA st.durable k = some w) :
    handle_post beh st ev = .ok (⟨409, errBody "Item already exists"⟩, st) := by
  have hkb : (k == "") = false := beq_eq_false_iff_ne.mpr hkt
  have hkt2 : truthy (.jstr k) = true := by simp [truthy, hkb]
  simp [handle_post, hb, bodyString, hl, hk, hv, hkt2, hvt, hdyn, hpresent]

theorem handle_patch_success_eq (beh : Beh) (st : St) (ev : Event) (bodyStr : String)
    (bf : JFields) (k : String) (patch fs : JFields)
    (hb : ev.body = .given bodyStr) (hl : loads bodyStr = some (.jobj bf))
    (hk : fget bf "config_key" = some (.jstr k))
    (hv : fget bf "config_value" = some (.jobj patch))
    (hkt : k ≠ "") (hpn : patch ≠ .fnil) (hpl : plainNames patch = true)
    (hdyn : beh.dynOk = true) (hdyn2 : beh.dynOk2 = true)
    (hstored : getA st.durable k = some (.jobj fs)) :
    handle_patch beh st ev
      = .ok (⟨if beh.cacheOk then 200 else 207, patchRespBody beh.cacheOk⟩,
        ⟨setA st.durable k (.jobj (applyPatch fs patch)),
         if beh.cacheOk then setA st.cache k (dumps (.jobj (applyPatch fs patch)))
         else st.cache⟩) := by
  have hkb : (k == "") = false := beq_eq_false_iff_ne.mpr hkt
  have hkt2 : truthy (.jstr k) = true := by simp [truthy, hkb]
  cases hco : beh.cacheOk <;>
    simp [handle_patch, hb, bodyString, hl, hk, hv, hkt2, hdyn, hdyn2,
      dynUpdate, hpn, hpl, hstored, store_to_valkey, hco, patchRespBody]

theorem handle_patch_notfound_eq (beh : Beh) (st : St) (ev : Event) (bodyStr : String)
    (bf : JFields) (k : String) (patch : JFields)
    (hb : ev.body = .given bodyStr) (hl : loads bodyStr = some (.jobj bf))
    (hk : fget bf "config_key" = some (.jstr k))
    (hv : fget bf "config_value" = some (.jobj patch))
    (hkt : k ≠ "") (hpn : patch ≠ .fnil) (hpl : plainNames patch = true)
    (hdyn : beh.dynOk = true) (habs : getA st.durable k = none) :
    handle_patch beh st ev = .ok (⟨404, errBody "Item not found"⟩, st) := by
  have hkb : (k == "") = false := beq_eq_false_iff_ne.mpr hkt
  have hkt2 : truthy (.jstr k) = true := by simp [truthy, hkb]
  simp [handle_patch, hb, bodyString, hl, hk, hv, hkt2, hdyn,
    dynUpdate, hpn, hpl, habs]

theorem handle_get_cache_hit_eq (beh : Beh) (st : St) (ev : Event)
    (ps : List (String × String)) (k : String) (v : JVal)
    (hqs : ev.queryStringParameters = .given ps)
    (hk : pyOrStr (getA ps "config_key") (getA ps "key") = some k) (hkt : k ≠ "")
    (hhit : get_from_valkey beh.cacheOk st k = some v) :
    handle_get beh st ev = .ok (⟨200, getRespBody k v "valkey"⟩, st) := by
  simp [handle_get, hqs, hk, hkt, hhit, getRespBody]

theorem handle_get_durable_hit_eq (beh : Beh) (st : St) (ev : Event)
    (ps : List (String × String)) (k : String) (v : JVal)
    (hqs : ev.queryStringParameters = .given ps)
    (hk : pyOrStr (getA ps "config_key") (getA ps "key") = some k) (hkt : k ≠ "")
    (hmiss : get_from_valkey beh.cacheOk st k = none)
    (hdyn : beh.dynOk = true) (hdur : getA st.durable k = some v) :
    handle_get beh st ev
      = .ok (⟨200, getRespBody k v "dynamodb"⟩, (store_to_valkey beh.cacheOk2 st k v).2) := by
  simp [handle_get, hqs, hk, hkt, hmiss, hdyn, hdur, getRespBody]

theorem handle_get_notfound_eq (beh : Beh) (st : St) (ev : Event)
    (ps : List (String × String)) (k : String)
    (hqs : ev.queryStringParameters = .given ps)
    (hk : pyOrStr (getA ps "config_key") (getA ps "key") = some k) (hkt : k ≠ "")
    (hmiss : get_from_valkey beh.cacheOk st k = none)
    (hdyn : beh.dynOk = true) (habs : getA st.durable k = none) :
    handle_get beh st ev = .ok (⟨404, errBody "Item not found"⟩, st) := by
  simp [handle_get, hqs, hk, hkt, hmiss, hdyn, habs]

/-- All three cache-side failure kinds (transport/timeout, true miss,
undecodable payload) make `get_from_valkey` report absence. -/
theorem get_from_valkey_none (beh : Beh) (st : St) (k : String)
    (h : beh.cacheOk = false ∨ getA st.cache k = none ∨
      (∃ text, getA st.cache k = some text ∧ loads text = none)) :
    get_from_valkey beh.cacheOk st k = none := by
  rcases h with h | h | ⟨text, h1, h2⟩
  · simp [get_from_valkey, h]
  · cases hco : beh.cacheOk <;> simp [get_from_valkey, h]
  · cases hco : beh.cacheOk <;> simp [get_from_valkey, h1, h2]

/-! ## Small access lemmas -/

theorem getA_setA_self {α : Type} (m : List (String × α)) (k : String) (v : α) :
    getA (setA m k v) k = some v := by
  induction m with
  | nil => simp [setA, getA]
  | cons p t ih =>
    obtain ⟨k2, w⟩ := p
    by_cases h : k2 = k
    · simp [setA, getA, h]
    · simp [setA, getA, h, ih]

theorem getA_setA_other {α : Type} (m : List (String × α)) (k k2 : String) (v : α)
    (h : k2 ≠ k) : getA (setA m k v) k2 = getA m k2 := by
  have h2 : k ≠ k2 := Ne.symm h
  induction m with
  | nil => simp [setA, getA, h2]
  | cons p t ih =>
    obtain ⟨k3, w⟩ := p
    by_cases h3 : k3 = k
    · subst h3
      simp [setA, getA, h2]
    · simp only [setA, h3, if_false, getA]
      by_cases h4 : k3 = k2 <;> simp [h4, ih]

theorem respField_getRespBody_value (k : String) (v : JVal) (src : String) (n : Nat) :
    respField ⟨n, getRespBody k v src⟩ "value" = some v := by
  simp [respField, getRespBody, fget]

theorem respField_getRespBody_source (k : String) (v : JVal) (src : String) (n : Nat) :
    respField ⟨n, getRespBody k v src⟩ "source" = some (.jstr src) := by
  simp [respField, getRespBody, fget]

/-! ## The claims -/

/-- C1: for every Update(key, partialFields) whose durable phase succeeds, the
cache is refreshed with the serialization of the full merged record — the new
durable value `applyPatch fs patch`, every untouched field of `fs` included —
never with `partialFields` alone (on cache failure the cache is left
untouched, not patched).  In particular, after Create(k, {a:1,b:2}) then
Update(k, {b:3}), Read(k) returns {a:1, b:3} whether the read is served from
the cache (`c3 = true`) or from the durable store (`c3 = false`). -/
theorem C1_update_refreshes_cache_with_full_merged_record
    (beh : Beh) (st : St) (ev : Event) (bodyStr : String) (bf : JFields)
    (k : String) (patch fs : JFields)
    (hb : ev.body = .given bodyStr) (hl : loads bodyStr = some (.jobj bf))
    (hk : fget bf "config_key" = some (.jstr k))
    (hv : fget bf "config_value" = some (.jobj patch))
    (hkt : k ≠ "") (hpn : patch ≠ .fnil) (hpl : plainNames patch = true)
    (hdyn : beh.dynOk = true) (hdyn2 : beh.dynOk2 = true)
    (hstored : getA st.durable k = some (.jobj fs)) :
    (handle_patch beh st ev
      = .ok (⟨if beh.cacheOk then 200 else 207, patchRespBody beh.cacheOk⟩,
        ⟨setA st.durable k (.jobj (applyPatch fs patch)),
         if beh.cacheOk then setA st.cache k (dumps (.jobj (applyPatch fs patch)))
         else st.cache⟩))
    ∧ (∀ c1 c3 c4 : Bool,
        ∃ (r1 r2 r3 : Resp) (st1 st2 st3 : St),
        lambda_handler ⟨true, true, c1, true⟩ ⟨[], []⟩
            ⟨.given "POST",
             .given "\x7b\"config_key\": \"k\", \"config_value\": \x7b\"a\": 1, \"b\": 2\x7d\x7d",
             .absent⟩ = .ok (r1, st1)
        ∧ lambda_handler ⟨true, true, true, true⟩ st1
            ⟨.given "PATCH",
             .given "\x7b\"config_key\": \"k\", \"config_value\": \x7b\"b\": 3\x7d\x7d",
             .absent⟩ = .ok (r2, st2)
        ∧ lambda_handler ⟨true, true, c3, c4⟩ st2
            ⟨.given "GET", .absent, .given [("config_key", "k")]⟩ = .ok (r3, st3)
        ∧ r3.statusCode = 200
        ∧ respField r3 "value"
            = some (.jobj (.fcons "a" (.jnum 1) (.fcons "b" (.jnum 3) .fnil)))) := by
  refine ⟨handle_patch_success_eq beh st ev bodyStr bf k patch fs
    hb hl hk hv hkt hpn hpl hdyn hdyn2 hstored, ?_⟩
  intro c1 c3 c4
  cases c1 <;> cases c3 <;> cases c4 <;>
    exact ⟨_, _, _, _, _, _, rfl, rfl, rfl, rfl, rfl⟩

/-- C1 witness: the concrete Update {b:3} of the record {a:1,b:2} stores the
full merged {a:1,b:3} durably and refreshes the cache with its serialization,
and the concrete scenario instance holds. -/
theorem C1_witness :
    (handle_patch ⟨true, true, true, true⟩
        ⟨[("k", .jobj (.fcons "a" (.jnum 1) (.fcons "b" (.jnum 2) .fnil)))], []⟩
        ⟨.given "PATCH",
         .given "\x7b\"config_key\": \"k\", \"config_value\": \x7b\"b\": 3\x7d\x7d", .absent⟩
      = .ok (⟨200, patchRespBody true⟩,
        ⟨[("k", .jobj (.fcons "a" (.jnum 1) (.fcons "b" (.jnum 3) .fnil)))],
         [("k", dumps (.jobj (.fcons "a" (.jnum 1) (.fcons "b" (.jnum 3) .fnil))))]⟩))
    ∧ (∃ (r1 r2 r3 : Resp) (st1 st2 st3 : St),
        lambda_handler ⟨true, true, true, true⟩ ⟨[], []⟩
            ⟨.given "POST",
             .given "\x7b\"config_key\": \"k\", \"config_value\": \x7b\"a\": 1, \"b\": 2\x7d\x7d",
             .absent⟩ = .ok (r1, st1)
        ∧ lambda_handler ⟨true, true, true, true⟩ st1
            ⟨.given "PATCH",
             .given "\x7b\"config_key\": \"k\", \"config_value\": \x7b\"b\": 3\x7d\x7d",
             .absent⟩ = .ok (r2, st2)
        ∧ lambda_handler ⟨true, true, true, true⟩ st2
            ⟨.given "GET", .absent, .given [("config_key", "k")]⟩ = .ok (r3, st3)
        ∧ r3.statusCode = 200
        ∧ respField r3 "value"
            = some (.jobj (.fcons "a" (.jnum 1) (.fcons "b" (.jnum 3) .fnil)))) := by
  have h := C1_update_refreshes_cache_with_full_merged_record
    ⟨true, true, true, true⟩
    ⟨[("k", .jobj (.fcons "a" (.jnum 1) (.fcons "b" (.jnum 2) .fnil)))], []⟩
    ⟨.given "PATCH",
     .given "\x7b\"config_key\": \"k\", \"config_value\": \x7b\"b\": 3\x7d\x7d", .absent⟩
    "\x7b\"config_key\": \"k\", \"config_value\": \x7b\"b\": 3\x7d\x7d"
    (.fcons "config_key" (.jstr "k")
      (.fcons "config_value" (.jobj (.fcons "b" (.jnum 3) .fnil)) .fnil))
    "k" (.fcons "b" (.jnum 3) .fnil) (.fcons "a" (.jnum 1) (.fcons "b" (.jnum 2) .fnil))
    rfl rfl rfl rfl (by decide) (by decide) (by decide) rfl rfl rfl
  exact ⟨h.1, h.2 true true true⟩

/-- C2 counterexample: with the durable phase of Create succeeding and the
cache mirror failing, the handler answers 207 (Multi-Status), not the
durable-path-determined 200 — the cache phase does change the status code,
refuting the claim as stated. -/
theorem C2_counterexample :
    lambda_handler ⟨true, true, false, true⟩ ⟨[], []⟩
      ⟨.given "POST",
       .given "\x7b\"config_key\": \"k\", \"config_value\": \x7b\"a\": 1\x7d\x7d",
       .absent⟩
      = .ok (⟨207, postRespBody false⟩,
        ⟨[("k", .jobj (.fcons "a" (.jnum 1) .fnil))], []⟩)
    ∧ (⟨207, postRespBody false⟩ : Resp).statusCode ≠ 200
    ∧ respField ⟨207, postRespBody false⟩ "stored_in_dynamodb"
        = some (.jbool true) := by
  exact ⟨rfl, by decide, rfl⟩

/-- C2 (amended): for every Create and Update whose durable phase succeeds,
the request never fails because of the cache phase — it returns 200 when the
best-effort cache mirror succeeds and 207 (Multi-Status) when it fails, and
the cache outcome is additionally reported in the `stored_in_valkey` /
`updated_in_valkey` flag of the success body (`postRespBody` /
`patchRespBody`). -/
theorem C2_amended_cache_failure_degrades_status_to_207 :
    (∀ (beh : Beh) (st : St) (ev : Event) (bodyStr : String) (bf : JFields)
        (k : String) (cv : JVal),
      ev.body = .given bodyStr → loads bodyStr = some (.jobj bf) →
      fget bf "config_key" = some (.jstr k) → fget bf "config_value" = some cv →
      k ≠ "" → truthy cv = true → beh.dynOk = true → getA st.durable k = none →
      handle_post beh st ev
        = .ok (⟨if beh.cacheOk then 200 else 207, postRespBody beh.cacheOk⟩,
          ⟨setA st.durable k cv,
           if beh.cacheOk then setA st.cache k (dumps cv) else st.cache⟩))
    ∧ (∀ (beh : Beh) (st : St) (ev : Event) (bodyStr : String) (bf : JFields)
        (k : String) (patch fs : JFields),
      ev.body = .given bodyStr → loads bodyStr = some (.jobj bf) →
      fget bf "config_key" = some (.jstr k) →
      fget bf "config_value" = some (.jobj patch) →
      k ≠ "" → patch ≠ .fnil → plainNames patch = true →
      beh.dynOk = true → beh.dynOk2 = true → getA st.durable k = some (.jobj fs) →
      handle_patch beh st ev
        = .ok (⟨if beh.cacheOk then 200 else 207, patchRespBody beh.cacheOk⟩,
          ⟨setA st.durable k (.jobj (applyPatch fs patch)),
           if beh.cacheOk then setA st.cache k (dumps (.jobj (applyPatch fs patch)))
           else st.cache⟩)) :=
  ⟨fun beh st ev bodyStr bf k cv hb hl hk hv hkt hvt hdyn habs =>
    handle_post_create_eq beh st ev bodyStr bf k cv hb hl hk hv hkt hvt hdyn habs,
   fun beh st ev bodyStr bf k patch fs hb hl hk hv hkt hpn hpl hdyn hdyn2 hstored =>
    handle_patch_success_eq beh st ev bodyStr bf k patch fs
      hb hl hk hv hkt hpn hpl hdyn hdyn2 hstored⟩

/-- C2 witness: a concrete Create with the cache unreachable returns 207 with
`stored_in_valkey = false` and an untouched cache. -/
theorem C2_witness :
    handle_post ⟨true, true, false, true⟩ ⟨[], []⟩
      ⟨.given "POST",
       .given "\x7b\"config_key\": \"k\", \"config_value\": \x7b\"a\": 1\x7d\x7d", .absent⟩
      = .ok (⟨207, postRespBody false⟩,
        ⟨[("k", .jobj (.fcons "a" (.jnum 1) .fnil))], []⟩) :=
  C2_amended_cache_failure_degrades_status_to_207.1
    ⟨true, true, false, true⟩ ⟨[], []⟩
    ⟨.given "POST",
     .given "\x7b\"config_key\": \"k\", \"config_value\": \x7b\"a\": 1\x7d\x7d", .absent⟩
    "\x7b\"config_key\": \"k\", \"config_value\": \x7b\"a\": 1\x7d\x7d"
    (.fcons "config_key" (.jstr "k")
      (.fcons "config_value" (.jobj (.fcons "a" (.jnum 1) .fnil)) .fnil))
    "k" (.jobj (.fcons "a" (.jnum 1) .fnil))
    rfl rfl rfl rfl (by decide) rfl rfl rfl

/-- C7 (code bug): `handle_patch` concatenates the raw field name into the
update expression — for the patch {"b-c": 1} it builds `SET #v.b-c = :val0`,
carrying the name verbatim with no name placeholder (only the value gets a
placeholder, `:val0`), a malformed DynamoDB document path that makes the
whole update fail with 500 rather than updating the field. -/
theorem C7_raw_field_name_in_update_expression :
    buildUpdateExpr (.fcons "b-c" (.jnum 1) .fnil) = "SET #v.b-c = :val0"
    ∧ exprAttrValues (.fcons "b-c" (.jnum 1) .fnil) 0 = [(":val0", .jnum 1)]
    ∧ plainNames (.fcons "b-c" (.jnum 1) .fnil) = false
    ∧ lambda_handler ⟨true, true, true, true⟩
        ⟨[("k", .jobj (.fcons "a" (.jnum 1) .fnil))], []⟩
        ⟨.given "PATCH",
         .given "\x7b\"config_key\": \"k\", \"config_value\": \x7b\"b-c\": 1\x7d\x7d",
         .absent⟩
      = .ok (⟨500, errBody "Failed to update in DynamoDB"⟩,
        ⟨[("k", .jobj (.fcons "a" (.jnum 1) .fnil))], []⟩) := by
  exact ⟨by decide, rfl, by decide, rfl⟩

/-- C3: Read consults the cache first; every cache-side failure kind
(transport/timeout, true miss, undecodable payload) makes the lookup fall
through to the durable store; an absent key there yields 404; a durable hit
yields 200 with the record's value and source `"dynamodb"` (the spec's
"durable" tier) and a best-effort repopulation whose outcome never appears in
the response; a cache hit yields 200 with source `"valkey"` (the spec's
"cache" tier). -/
theorem C3_read_cache_first_then_durable
    (beh : Beh) (st : St) (ev : Event) (ps : List (String × String)) (k : String)
    (hqs : ev.queryStringParameters = .given ps)
    (hk : pyOrStr (getA ps "config_key") (getA ps "key") = some k) (hkt : k ≠ "") :
    (∀ v, get_from_valkey beh.cacheOk st k = some v →
      handle_get beh st ev = .ok (⟨200, getRespBody k v "valkey"⟩, st))
    ∧ ((beh.cacheOk = false ∨ getA st.cache k = none ∨
        (∃ text, getA st.cache k = some text ∧ loads text = none)) →
      get_from_valkey beh.cacheOk st k = none)
    ∧ (get_from_valkey beh.cacheOk st k = none → beh.dynOk = true →
        (∀ v, getA st.durable k = some v →
          handle_get beh st ev
            = .ok (⟨200, getRespBody k v "dynamodb"⟩,
              (store_to_valkey beh.cacheOk2 st k v).2))
        ∧ (getA st.durable k = none →
          handle_get beh st ev = .ok (⟨404, errBody "Item not found"⟩, st))) := by
  refine ⟨fun v hv => handle_get_cache_hit_eq beh st ev ps k v hqs hk hkt hv,
    get_from_valkey_none beh st k, fun hmiss hdyn =>
      ⟨fun v hv => handle_get_durable_hit_eq beh st ev ps k v hqs hk hkt hmiss hdyn hv,
       fun habs => handle_get_notfound_eq beh st ev ps k hqs hk hkt hmiss hdyn habs⟩⟩

/-- C3 witness: a cache hit is served from the cache with source `valkey`;
with the cache unreachable and the key absent from the durable store, the
read answers 404. -/
theorem C3_witness :
    handle_get ⟨true, true, true, true⟩ ⟨[], [("k", "\x7b\"a\": 1\x7d")]⟩
      ⟨.given "GET", .absent, .given [("config_key", "k")]⟩
      = .ok (⟨200, getRespBody "k" (.jobj (.fcons "a" (.jnum 1) .fnil)) "valkey"⟩,
        ⟨[], [("k", "\x7b\"a\": 1\x7d")]⟩)
    ∧ handle_get ⟨true, true, false, false⟩ ⟨[], []⟩
      ⟨.given "GET", .absent, .given [("key", "m")]⟩
      = .ok (⟨404, errBody "Item not found"⟩, ⟨[], []⟩) := by
  have h1 := C3_read_cache_first_then_durable ⟨true, true, true, true⟩
    ⟨[], [("k", "\x7b\"a\": 1\x7d")]⟩
    ⟨.given "GET", .absent, .given [("config_key", "k")]⟩
    [("config_key", "k")] "k" rfl rfl (by decide)
  have h2 := C3_read_cache_first_then_durable ⟨true, true, false, false⟩ ⟨[], []⟩
    ⟨.given "GET", .absent, .given [("key", "m")]⟩
    [("key", "m")] "m" rfl rfl (by decide)
  exact ⟨h1.1 (.jobj (.fcons "a" (.jnum 1) .fnil)) rfl,
    (h2.2.2 (h2.2.1 (Or.inl rfl)) rfl).2 rfl⟩

/-- The read that follows a successful Create(k, v) on a state whose cache
had no entry for k returns 200 with exactly v, whether or not the create's
cache mirror succeeded (`c1`) and whether the read is served from the cache
(`c3 = true` and `c1 = true`) or falls through to the durable store. -/
theorem read_after_create (st : St) (ev2 : Event) (ps : List (String × String))
    (k : String) (v : JVal) (c1 c3 c4 : Bool)
    (hqs : ev2.queryStringParameters = .given ps)
    (hps : pyOrStr (getA ps "config_key") (getA ps "key") = some k) (hkt : k ≠ "")
    (hgood : goodV v = true) (hcache0 : getA st.cache k = none) :
    ∃ r2 st2,
      handle_get ⟨true, true, c3, c4⟩
        ⟨setA st.durable k v, if c1 then setA st.cache k (dumps v) else st.cache⟩ ev2
        = .ok (r2, st2)
      ∧ r2.statusCode = 200 ∧ respField r2 "value" = some v := by
  cases c3 with
  | false =>
    have hmiss : get_from_valkey (⟨true, true, false, c4⟩ : Beh).cacheOk
        ⟨setA st.durable k v, if c1 then setA st.cache k (dumps v) else st.cache⟩ k
        = none := rfl
    exact ⟨_, _, handle_get_durable_hit_eq ⟨true, true, false, c4⟩ _ ev2 ps k v
        hqs hps hkt hmiss rfl (getA_setA_self ..),
      rfl, respField_getRespBody_value ..⟩
  | true =>
    cases c1 with
    | true =>
      have hhit : get_from_valkey (⟨true, true, true, c4⟩ : Beh).cacheOk
          ⟨setA st.durable k v, setA st.cache k (dumps v)⟩ k = some v := by
        simp [get_from_valkey, getA_setA_self, loads_dumps hgood]
      exact ⟨_, _, handle_get_cache_hit_eq ⟨true, true, true, c4⟩ _ ev2 ps k v
          hqs hps hkt hhit,
        rfl, respField_getRespBody_value ..⟩
    | false =>
      have hmiss : get_from_valkey (⟨true, true, true, c4⟩ : Beh).cacheOk
          ⟨setA st.durable k v, st.cache⟩ k = none := by
        simp [get_from_valkey, hcache0]
      exact ⟨_, _, handle_get_durable_hit_eq ⟨true, true, true, c4⟩ _ ev2 ps k v
          hqs hps hkt hmiss rfl (getA_setA_self ..),
        rfl, respField_getRespBody_value ..⟩

/-- C4: Create on a key that is already present in the durable store answers
409 Conflict with the state returned unchanged (neither store touched by the
failed call); and in the Create(k,v1); Create(k,v2); Read(k) scenario the
second create fails with 409 leaving the first create's state intact, and
the read still returns v1 — from the cache or from the durable store alike. -/
theorem C4_create_conflict :
    (∀ (beh : Beh) (st : St) (ev : Event) (bodyStr : String) (bf : JFields)
        (k : String) (cv w : JVal),
      ev.body = .given bodyStr → loads bodyStr = some (.jobj bf) →
      fget bf "config_key" = some (.jstr k) → fget bf "config_value" = some cv →
      k ≠ "" → truthy cv = true → beh.dynOk = true → getA st.durable k = some w →
      handle_post beh st ev = .ok (⟨409, errBody "Item already exists"⟩, st))
    ∧ (∀ (st : St) (ev1 ev2 ev3 : Event) (b1 b2 : String) (bf1 bf2 : JFields)
        (k : String) (v1 v2 : JVal) (ps : List (String × String)) (c1 c2 c3 c4 : Bool),
      ev1.body = .given b1 → loads b1 = some (.jobj bf1) →
      fget bf1 "config_key" = some (.jstr k) → fget bf1 "config_value" = some v1 →
      ev2.body = .given b2 → loads b2 = some (.jobj bf2) →
      fget bf2 "config_key" = some (.jstr k) → fget bf2 "config_value" = some v2 →
      ev3.queryStringParameters = .given ps →
      pyOrStr (getA ps "config_key") (getA ps "key") = some k →
      k ≠ "" → truthy v1 = true → truthy v2 = true → goodV v1 = true →
      getA st.durable k = none → getA st.cache k = none →
      ∀ r1 st1, handle_post ⟨true, true, c1, true⟩ st ev1 = .ok (r1, st1) →
        handle_post ⟨true, true, c2, true⟩ st1 ev2
            = .ok (⟨409, errBody "Item already exists"⟩, st1)
        ∧ ∃ r3 st3, handle_get ⟨true, true, c3, c4⟩ st1 ev3 = .ok (r3, st3)
            ∧ r3.statusCode = 200 ∧ respField r3 "value" = some v1) := by
  constructor
  · intro beh st ev bodyStr bf k cv w hb hl hk hv hkt hvt hdyn hpresent
    exact handle_post_conflict_eq beh st ev bodyStr bf k cv w hb hl hk hv hkt hvt hdyn hpresent
  · intro st ev1 ev2 ev3 b1 b2 bf1 bf2 k v1 v2 ps c1 c2 c3 c4
      hb1 hl1 hk1 hv1 hb2 hl2 hk2 hv2 hqs hps hkt hvt1 hvt2 hgood hdur0 hcache0 r1 st1 h1
    have he := handle_post_create_eq ⟨true, true, c1, true⟩ st ev1 b1 bf1 k v1
      hb1 hl1 hk1 hv1 hkt hvt1 rfl hdur0
    rw [he] at h1
    simp only [Except.ok.injEq, Prod.mk.injEq] at h1
    obtain ⟨-, hst1⟩ := h1
    subst hst1
    constructor
    · exact handle_post_conflict_eq ⟨true, true, c2, true⟩ _ ev2 b2 bf2 k v2 v1
        hb2 hl2 hk2 hv2 hkt hvt2 rfl (getA_setA_self ..)
    · exact read_after_create st ev3 ps k v1 c1 c3 c4 hqs hps hkt hgood hcache0

/-- C4 witness: Create("k", {a:1}); Create("k", {a:2}) answers 409 leaving the
first record and its cache entry intact, and the subsequent read returns
{a:1}. -/
theorem C4_witness :
    handle_post ⟨true, true, true, true⟩
        ⟨[("k", .jobj (.fcons "a" (.jnum 1) .fnil))],
         [("k", dumps (.jobj (.fcons "a" (.jnum 1) .fnil)))]⟩
        ⟨.given "POST",
         .given "\x7b\"config_key\": \"k\", \"config_value\": \x7b\"a\": 2\x7d\x7d", .absent⟩
      = .ok (⟨409, errBody "Item already exists"⟩,
        ⟨[("k", .jobj (.fcons "a" (.jnum 1) .fnil))],
         [("k", dumps (.jobj (.fcons "a" (.jnum 1) .fnil)))]⟩)
    ∧ ∃ r3 st3, handle_get ⟨true, true, true, true⟩
        ⟨[("k", .jobj (.fcons "a" (.jnum 1) .fnil))],
         [("k", dumps (.jobj (.fcons "a" (.jnum 1) .fnil)))]⟩
        ⟨.given "GET", .absent, .given [("config_key", "k")]⟩ = .ok (r3, st3)
      ∧ r3.statusCode = 200
      ∧ respField r3 "value" = some (.jobj (.fcons "a" (.jnum 1) .fnil)) :=
  C4_create_conflict.2 ⟨[], []⟩
    ⟨.given "POST",
     .given "\x7b\"config_key\": \"k\", \"config_value\": \x7b\"a\": 1\x7d\x7d", .absent⟩
    ⟨.given "POST",
     .given "\x7b\"config_key\": \"k\", \"config_value\": \x7b\"a\": 2\x7d\x7d", .absent⟩
    ⟨.given "GET", .absent, .given [("config_key", "k")]⟩
    "\x7b\"config_key\": \"k\", \"config_value\": \x7b\"a\": 1\x7d\x7d"
    "\x7b\"config_key\": \"k\", \"config_value\": \x7b\"a\": 2\x7d\x7d"
    (.fcons "config_key" (.jstr "k")
      (.fcons "config_value" (.jobj (.fcons "a" (.jnum 1) .fnil)) .fnil))
    (.fcons "config_key" (.jstr "k")
      (.fcons "config_value" (.jobj (.fcons "a" (.jnum 2) .fnil)) .fnil))
    "k" (.jobj (.fcons "a" (.jnum 1) .fnil)) (.jobj (.fcons "a" (.jnum 2) .fnil))
    [("config_key", "k")] true true true true
    rfl rfl rfl rfl rfl rfl rfl rfl rfl rfl (by decide) rfl rfl (by decide) rfl rfl
    ⟨200, postRespBody true⟩
    ⟨[("k", .jobj (.fcons "a" (.jnum 1) .fnil))],
     [("k", dumps (.jobj (.fcons "a" (.jnum 1) .fnil)))]⟩ rfl

/-- C5 counterexample: `Update("missing", \x7b\x7d)` — an in-scope key/patch
pair, the key absent from the durable store — is not answered with 404: the
empty patch passes the `isinstance(dict)` check, the loop of lines 280-284
emits no clause so the expression is the bare `"SET"`, and the durable call
fails on expression validation before any existence check, so the handler
answers 500, refuting the universal 404 part of the claim. -/
theorem C5_counterexample :
    handle_patch ⟨true, true, true, true⟩ ⟨[], []⟩
      ⟨.given "PATCH",
       .given "\x7b\"config_key\": \"missing\", \"config_value\": \x7b\x7d\x7d", .absent⟩
      = .ok (⟨500, errBody "Failed to update in DynamoDB"⟩, ⟨[], []⟩)
    ∧ (⟨500, errBody "Failed to update in DynamoDB"⟩ : Resp).statusCode ≠ 404
    ∧ buildUpdateExpr .fnil = "SET"
    ∧ getA ([] : List (String × JVal)) "missing" = none := by
  exact ⟨rfl, by decide, by decide, rfl⟩

/-- C5 (amended): Update on a key absent from the durable store fails with
404 for every patch the durable store accepts as a well-formed update
expression (non-empty, with well-formed field names; a patch failing
expression validation — such as the empty mapping, whose expression is the
bare `"SET"` — fails with 500 instead, before the existence check); and
unconditionally, whatever the patch and the failure mode, no record is
created — update is not an upsert — and neither store is touched by the
failed call. -/
theorem C5_update_absent_key_is_not_upsert
    (beh : Beh) (st : St) (ev : Event) (bodyStr : String) (bf : JFields)
    (k : String) (patch : JFields)
    (hb : ev.body = .given bodyStr) (hl : loads bodyStr = some (.jobj bf))
    (hk : fget bf "config_key" = some (.jstr k))
    (hv : fget bf "config_value" = some (.jobj patch))
    (hkt : k ≠ "") (habs : getA st.durable k = none) :
    (beh.dynOk = true → patch ≠ .fnil → plainNames patch = true →
      handle_patch beh st ev = .ok (⟨404, errBody "Item not found"⟩, st))
    ∧ (∀ r st2, handle_patch beh st ev = .ok (r, st2) → st2 = st) := by
  have hkb : (k == "") = false := beq_eq_false_iff_ne.mpr hkt
  have hkt2 : truthy (.jstr k) = true := by simp [truthy, hkb]
  constructor
  · intro hdyn hpn hpl
    exact handle_patch_notfound_eq beh st ev bodyStr bf k patch
      hb hl hk hv hkt hpn hpl hdyn habs
  · intro r st2 h
    cases hu : dynUpdate st.durable k patch with
    | validationError =>
      cases hdyn : beh.dynOk <;>
        simp [handle_patch, hb, bodyString, hl, hk, hv, hkt2, hdyn, hu] at h <;>
        exact h.2.symm
    | condFail =>
      cases hdyn : beh.dynOk <;>
        simp [handle_patch, hb, bodyString, hl, hk, hv, hkt2, hdyn, hu] at h <;>
        exact h.2.symm
    | updated nd m =>
      rw [dynUpdate] at hu
      split at hu
      · simp at hu
      · rw [habs] at hu
        simp at hu

/-- C5 witness: `Update("missing", {x:1})` on an empty store answers 404 and
creates nothing. -/
theorem C5_witness :
    handle_patch ⟨true, true, true, true⟩ ⟨[], []⟩
      ⟨.given "PATCH",
       .given "\x7b\"config_key\": \"missing\", \"config_value\": \x7b\"x\": 1\x7d\x7d", .absent⟩
      = .ok (⟨404, errBody "Item not found"⟩, ⟨[], []⟩)
    ∧ (∀ r st2, handle_patch ⟨true, true, true, true⟩ ⟨[], []⟩
        ⟨.given "PATCH",
         .given "\x7b\"config_key\": \"missing\", \"config_value\": \x7b\"x\": 1\x7d\x7d", .absent⟩
        = .ok (r, st2) → st2 = ⟨[], []⟩) := by
  have h := C5_update_absent_key_is_not_upsert ⟨true, true, true, true⟩ ⟨[], []⟩
    ⟨.given "PATCH",
     .given "\x7b\"config_key\": \"missing\", \"config_value\": \x7b\"x\": 1\x7d\x7d", .absent⟩
    "\x7b\"config_key\": \"missing\", \"config_value\": \x7b\"x\": 1\x7d\x7d"
    (.fcons "config_key" (.jstr "missing")
      (.fcons "config_value" (.jobj (.fcons "x" (.jnum 1) .fnil)) .fnil))
    "missing" (.fcons "x" (.jnum 1) .fnil)
    rfl rfl rfl rfl (by decide) rfl
  exact ⟨h.1 rfl (by decide) (by decide), h.2⟩

/-- C6: Create(k, v) then Read(k) returns a value deep-equal to v, both when
the read is served from the cache — through the `json.dumps`/`json.loads`
pair — and when it is served from the durable store (all combinations of the
cache mirror succeeding and the read hitting or missing the cache). -/
theorem C6_create_then_read_roundtrip
    (st : St) (ev1 ev2 : Event) (b1 : String) (bf1 : JFields)
    (k : String) (v : JVal) (ps : List (String × String)) (c1 c3 c4 : Bool)
    (hb1 : ev1.body = .given b1) (hl1 : loads b1 = some (.jobj bf1))
    (hk1 : fget bf1 "config_key" = some (.jstr k))
    (hv1 : fget bf1 "config_value" = some v)
    (hkt : k ≠ "") (hvt : truthy v = true) (hgood : goodV v = true)
    (hqs : ev2.queryStringParameters = .given ps)
    (hps : pyOrStr (getA ps "config_key") (getA ps "key") = some k)
    (hdur0 : getA st.durable k = none) (hcache0 : getA st.cache k = none) :
    ∀ r1 st1, handle_post ⟨true, true, c1, true⟩ st ev1 = .ok (r1, st1) →
      ∃ r2 st2, handle_get ⟨true, true, c3, c4⟩ st1 ev2 = .ok (r2, st2)
        ∧ r2.statusCode = 200 ∧ respField r2 "value" = some v := by
  intro r1 st1 h1
  have he := handle_post_create_eq ⟨true, true, c1, true⟩ st ev1 b1 bf1 k v
    hb1 hl1 hk1 hv1 hkt hvt rfl hdur0
  rw [he] at h1
  simp only [Except.ok.injEq, Prod.mk.injEq] at h1
  obtain ⟨-, hst1⟩ := h1
  subst hst1
  exact read_after_create st ev2 ps k v c1 c3 c4 hqs hps hkt hgood hcache0

/-- C6 witness: Create("k", {a:1}) then Read("k") returns {a:1} (cache-served
instance). -/
theorem C6_witness :
    ∃ r2 st2, handle_get ⟨true, true, true, true⟩
        ⟨[("k", .jobj (.fcons "a" (.jnum 1) .fnil))],
         [("k", dumps (.jobj (.fcons "a" (.jnum 1) .fnil)))]⟩
        ⟨.given "GET", .absent, .given [("config_key", "k")]⟩ = .ok (r2, st2)
      ∧ r2.statusCode = 200
      ∧ respField r2 "value" = some (.jobj (.fcons "a" (.jnum 1) .fnil)) :=
  C6_create_then_read_roundtrip ⟨[], []⟩
    ⟨.given "POST",
     .given "\x7b\"config_key\": \"k\", \"config_value\": \x7b\"a\": 1\x7d\x7d", .absent⟩
    ⟨.given "GET", .absent, .given [("config_key", "k")]⟩
    "\x7b\"config_key\": \"k\", \"config_value\": \x7b\"a\": 1\x7d\x7d"
    (.fcons "config_key" (.jstr "k")
      (.fcons "config_value" (.jobj (.fcons "a" (.jnum 1) .fnil)) .fnil))
    "k" (.jobj (.fcons "a" (.jnum 1) .fnil)) [("config_key", "k")] true true true
    rfl rfl rfl rfl (by decide) rfl (by decide) rfl rfl rfl rfl
    ⟨200, postRespBody true⟩
    ⟨[("k", .jobj (.fcons "a" (.jnum 1) .fnil))],
     [("k", dumps (.jobj (.fcons "a" (.jnum 1) .fnil)))]⟩ rfl

/-- C8: validation is Python-truthiness-based: a POST whose `config_key` or
`config_value` is present but falsy (empty string, empty mapping, 0, null,
false) is rejected with 400 with neither store touched (the state comes back
unchanged); yet a PATCH whose `config_value` is the empty mapping `{}` passes
validation — `{}` is a dict — and proceeds to the durable phase, where the
empty update expression (`"SET"`) makes the call fail 500 with the
durable-phase error body, rather than being rejected with 400. -/
theorem C8_truthiness_validation :
    (∀ (beh : Beh) (st : St) (ev : Event) (bodyStr : String) (bf : JFields),
      ev.body = .given bodyStr → loads bodyStr = some (.jobj bf) →
      ((∃ u, fget bf "config_key" = some u ∧ truthy u = false) ∨
       (∃ w, fget bf "config_value" = some w ∧ truthy w = false)) →
      handle_post beh st ev
        = .ok (resp400 "config_key and config_value are required", st))
    ∧ (∀ (beh : Beh) (st : St) (ev : Event) (bodyStr : String) (bf : JFields)
        (k : String),
      ev.body = .given bodyStr → loads bodyStr = some (.jobj bf) →
      fget bf "config_key" = some (.jstr k) → k ≠ "" →
      fget bf "config_value" = some (.jobj .fnil) → beh.dynOk = true →
      handle_patch beh st ev
        = .ok (⟨500, errBody "Failed to update in DynamoDB"⟩, st)) := by
  constructor
  · intro beh st ev bodyStr bf hb hl hcase
    rcases hcase with ⟨u, hu, hut⟩ | ⟨w, hw, hwt⟩
    · cases hv : fget bf "config_value" with
      | none => simp [handle_post, hb, bodyString, hl, hu, hv, hut, resp400]
      | some w2 => simp [handle_post, hb, bodyString, hl, hu, hv, hut, resp400]
    · cases hk : fget bf "config_key" with
      | none => simp [handle_post, hb, bodyString, hl, hk, hw, hwt, resp400]
      | some u2 => simp [handle_post, hb, bodyString, hl, hk, hw, hwt, resp400]
  · intro beh st ev bodyStr bf k hb hl hk hkt hv hdyn
    have hkb : (k == "") = false := beq_eq_false_iff_ne.mpr hkt
    have hkt2 : truthy (.jstr k) = true := by simp [truthy, hkb]
    have hu : dynUpdate st.durable k .fnil = .validationError := by simp [dynUpdate]
    simp [handle_patch, hb, bodyString, hl, hk, hv, hkt2, hdyn, hu]

/-- C8 witness: the same `{}` value is rejected with 400 by POST (falsy) but
passes PATCH validation and reaches the durable phase (500 durable error). -/
theorem C8_witness :
    handle_post ⟨true, true, true, true⟩ ⟨[], []⟩
      ⟨.given "POST",
       .given "\x7b\"config_key\": \"k\", \"config_value\": \x7b\x7d\x7d", .absent⟩
      = .ok (resp400 "config_key and config_value are required", ⟨[], []⟩)
    ∧ handle_patch ⟨true, true, true, true⟩ ⟨[], []⟩
      ⟨.given "PATCH",
       .given "\x7b\"config_key\": \"k\", \"config_value\": \x7b\x7d\x7d", .absent⟩
      = .ok (⟨500, errBody "Failed to update in DynamoDB"⟩, ⟨[], []⟩) :=
  ⟨C8_truthiness_validation.1 ⟨true, true, true, true⟩ ⟨[], []⟩
    ⟨.given "POST",
     .given "\x7b\"config_key\": \"k\", \"config_value\": \x7b\x7d\x7d", .absent⟩
    "\x7b\"config_key\": \"k\", \"config_value\": \x7b\x7d\x7d"
    (.fcons "config_key" (.jstr "k") (.fcons "config_value" (.jobj .fnil) .fnil))
    rfl rfl (Or.inr ⟨.jobj .fnil, rfl, rfl⟩),
   C8_truthiness_validation.2 ⟨true, true, true, true⟩ ⟨[], []⟩
    ⟨.given "PATCH",
     .given "\x7b\"config_key\": \"k\", \"config_value\": \x7b\x7d\x7d", .absent⟩
    "\x7b\"config_key\": \"k\", \"config_value\": \x7b\x7d\x7d"
    (.fcons "config_key" (.jstr "k") (.fcons "config_value" (.jobj .fnil) .fnil))
    "k" rfl rfl rfl (by decide) rfl rfl⟩

/-- C9 counterexample: with both `config_key` and `key` present in the query
mapping but holding empty values, the handler still answers 400 — refuting
the claim that (for a present mapping) 400 occurs only when both parameters
are absent. -/
theorem C9_counterexample :
    lambda_handler ⟨true, true, true, true⟩ ⟨[], []⟩
      ⟨.given "GET", .absent, .given [("config_key", ""), ("key", "")]⟩
      = .ok (⟨400, errBody "Missing config_key parameter"⟩, ⟨[], []⟩)
    ∧ getA [("config_key", ""), ("key", "")] "config_key" = some ""
    ∧ getA [("config_key", ""), ("key", "")] "key" = some "" := by
  exact ⟨rfl, rfl, rfl⟩

/-- C9 (amended): Read accepts `key` as an alias for `config_key`: when
`config_key` is absent and `key` supplies a non-empty value, the request
behaves exactly as if `config_key` carried that value; and within a present
query-parameter mapping, 400 is returned exactly when the effective key —
`config_key` falling back to `key`, by Python `or` — is absent or empty
(so also when both parameters are present but falsy). -/
theorem C9_amended_key_alias :
    (∀ (beh : Beh) (st : St) (ev : Event) (ps : List (String × String)) (k : String),
      ev.queryStringParameters = .given ps →
      getA ps "config_key" = none → getA ps "key" = some k → k ≠ "" →
      handle_get beh st ev
        = handle_get beh st ⟨ev.httpMethod, ev.body, .given [("config_key", k)]⟩)
    ∧ (∀ (beh : Beh) (st : St) (ev : Event) (ps : List (String × String)),
      ev.queryStringParameters = .given ps →
      (handle_get beh st ev = .ok (resp400 "Missing config_key parameter", st)
        ↔ (pyOrStr (getA ps "config_key") (getA ps "key") = none ∨
           pyOrStr (getA ps "config_key") (getA ps "key") = some ""))) := by
  constructor
  · intro beh st ev ps k hqs hck hkey hkt
    have h1 : pyOrStr (getA ps "config_key") (getA ps "key") = some k := by
      rw [hck, hkey]
      rfl
    have h2 : pyOrStr (getA [("config_key", k)] "config_key")
        (getA [("config_key", k)] "key") = some k := by
      simp [getA, pyOrStr, hkt]
    simp [handle_get, hqs, h1, h2, hkt]
  · intro beh st ev ps hqs
    constructor
    · intro h400
      by_contra hno
      push_neg at hno
      obtain ⟨hn1, hn2⟩ := hno
      cases hc : pyOrStr (getA ps "config_key") (getA ps "key") with
      | none => exact hn1 hc
      | some k =>
        have hkt : k ≠ "" := fun he => hn2 (by rw [hc, he])
        cases hv : get_from_valkey beh.cacheOk st k with
        | some v =>
          simp [handle_get, hqs, hc, hkt, hv, resp400, errBody, getRespBody] at h400
        | none =>
          cases hdyn : beh.dynOk with
          | false =>
            simp [handle_get, hqs, hc, hkt, hv, hdyn, resp400, errBody] at h400
          | true =>
            cases hd : getA st.durable k with
            | some v =>
              simp [handle_get, hqs, hc, hkt, hv, hdyn, hd, resp400, errBody,
                getRespBody] at h400
            | none =>
              simp [handle_get, hqs, hc, hkt, hv, hdyn, hd, resp400, errBody] at h400
    · intro hcond
      rcases hcond with hc | hc
      · simp [handle_get, hqs, hc, resp400]
      · simp [handle_get, hqs, hc, resp400]

/-- C9 witness: `?key=k2` alone reads the record under `k2` exactly as
`?config_key=k2` would. -/
theorem C9_witness :
    handle_get ⟨true, true, false, false⟩ ⟨[("k2", .jnum 7)], []⟩
      ⟨.given "GET", .absent, .given [("key", "k2")]⟩
      = handle_get ⟨true, true, false, false⟩ ⟨[("k2", .jnum 7)], []⟩
        ⟨.given "GET", .absent, .given [("config_key", "k2")]⟩ :=
  C9_amended_key_alias.1 ⟨true, true, false, false⟩ ⟨[("k2", .jnum 7)], []⟩
    ⟨.given "GET", .absent, .given [("key", "k2")]⟩
    [("key", "k2")] "k2" rfl rfl rfl (by decide)

/-! ## C10: totality of the top-level handler -/

theorem handle_post_status (beh : Beh) (st : St) (ev : Event) (r : Resp) (st2 : St)
    (h : handle_post beh st ev = .ok (r, st2)) :
    r.statusCode = 200 ∨ r.statusCode = 207 ∨ r.statusCode = 400 ∨
      r.statusCode = 409 ∨ r.statusCode = 500 := by
  unfold handle_post at h
  cases hco : beh.cacheOk <;>
    simp only [hco, store_to_valkey] at h <;>
    repeat' split at h
  all_goals simp_all [bodyString, resp400]
  all_goals (obtain ⟨h1, h2⟩ := h; subst h1; simp [resp400])

theorem handle_get_status (beh : Beh) (st : St) (ev : Event) (r : Resp) (st2 : St)
    (h : handle_get beh st ev = .ok (r, st2)) :
    r.statusCode = 200 ∨ r.statusCode = 400 ∨ r.statusCode = 404 ∨
      r.statusCode = 500 := by
  unfold handle_get at h
  repeat' split at h
  all_goals simp_all [resp400]
  all_goals (obtain ⟨h1, h2⟩ := h; subst h1; simp [resp400])

theorem handle_patch_status (beh : Beh) (st : St) (ev : Event) (r : Resp) (st2 : St)
    (h : handle_patch beh st ev = .ok (r, st2)) :
    r.statusCode = 200 ∨ r.statusCode = 207 ∨ r.statusCode = 400 ∨
      r.statusCode = 404 ∨ r.statusCode = 500 := by
  unfold handle_patch at h
  cases hco : beh.cacheOk <;>
    simp only [hco, store_to_valkey] at h <;>
    repeat' split at h
  all_goals simp_all [bodyString, resp400]
  all_goals (obtain ⟨h1, h2⟩ := h; subst h1; simp [resp400])

theorem dispatch_status (beh : Beh) (st : St) (ev : Event) (method : String)
    (r : Resp) (st2 : St) (h : dispatch beh st ev method = .ok (r, st2)) :
    r.statusCode = 200 ∨ r.statusCode = 207 ∨ r.statusCode = 400 ∨
      r.statusCode = 404 ∨ r.statusCode = 405 ∨ r.statusCode = 409 ∨
      r.statusCode = 500 := by
  unfold dispatch at h
  split at h
  · rcases handle_post_status _ _ _ _ _ h with h2 | h2 | h2 | h2 | h2 <;> simp [h2]
  · split at h
    · rcases handle_get_status _ _ _ _ _ h with h2 | h2 | h2 | h2 <;> simp [h2]
    · split at h
      · rcases handle_patch_status _ _ _ _ _ h with h2 | h2 | h2 | h2 | h2 <;>
          simp [h2]
      · simp only [Except.ok.injEq, Prod.mk.injEq] at h
        simp [← h.1]

theorem lambda_handler_ok (beh : Beh) (st : St) (ev : Event) (method : String)
    (hm : methodOf ev.httpMethod = .ok method) :
    ∃ r st2, lambda_handler beh st ev = .ok (r, st2)
      ∧ (r.statusCode = 200 ∨ r.statusCode = 207 ∨ r.statusCode = 400 ∨
         r.statusCode = 404 ∨ r.statusCode = 405 ∨ r.statusCode = 409 ∨
         r.statusCode = 500) := by
  cases hd : dispatch beh st ev method with
  | ok p =>
    obtain ⟨r, st2⟩ := p
    exact ⟨r, st2, by simp [lambda_handler, hm, hd],
      dispatch_status beh st ev method r st2 hd⟩
  | error e =>
    cases e with
    | jsonDecodeError =>
      exact ⟨⟨400, errBody "Invalid JSON format"⟩, st,
        by simp [lambda_handler, hm, hd], by simp⟩
    | otherError =>
      exact ⟨⟨500, errBody "Internal server error"⟩, st,
        by simp [lambda_handler, hm, hd], by simp⟩

/-- C10 counterexample: an event whose `httpMethod` is JSON null refutes
totality — `event.get("httpMethod", "")` yields `None` (the default applies
only to an absent key), and the `.upper()` of line 114, which runs BEFORE
the `try` of line 116, raises `AttributeError` out of `lambda_handler`: the
call propagates the exception (`.error`) and in particular does not return
the 500 response the catch-all would have produced. -/
theorem C10_counterexample :
    lambda_handler ⟨true, true, true, true⟩ ⟨[], []⟩ ⟨.null, .absent, .absent⟩
      = .error .otherError
    ∧ lambda_handler ⟨true, true, true, true⟩ ⟨[], []⟩ ⟨.null, .absent, .absent⟩
      ≠ .ok (⟨500, errBody "Internal server error"⟩, ⟨[], []⟩) := by
  exact ⟨rfl, fun h => nomatch h⟩

/-- C10 (amended): the top-level handler is total at the HTTP boundary for
every inbound event whose `httpMethod` is not JSON null (for a JSON-null
method the `.upper()` of line 114 runs before the `try` of line 116 and its
`AttributeError` propagates uncaught): every such event gets a well-formed
response whose status code is one of the codes the code can produce; HTTP
methods other than POST/GET/PATCH (after `.upper()`) receive 405 with the
state untouched; a `json.JSONDecodeError` escaping the dispatched handler is
caught and mapped to 400, and any other exception raised inside the `try` to
500. -/
theorem C10_lambda_handler_total (beh : Beh) (st : St) (ev : Event)
    (hnn : ev.httpMethod ≠ .null) :
    (∃ r st2, lambda_handler beh st ev = .ok (r, st2)
      ∧ (r.statusCode = 200 ∨ r.statusCode = 207 ∨ r.statusCode = 400 ∨
         r.statusCode = 404 ∨ r.statusCode = 405 ∨ r.statusCode = 409 ∨
         r.statusCode = 500))
    ∧ (∀ m, ev.httpMethod = .given m →
        pyUpper m ≠ "POST" → pyUpper m ≠ "GET" → pyUpper m ≠ "PATCH" →
        lambda_handler beh st ev = .ok (⟨405, errBody "Method not allowed"⟩, st))
    ∧ (∀ method, methodOf ev.httpMethod = .ok method →
        dispatch beh st ev method = .error .jsonDecodeError →
        lambda_handler beh st ev = .ok (⟨400, errBody "Invalid JSON format"⟩, st))
    ∧ (∀ method, methodOf ev.httpMethod = .ok method →
        dispatch beh st ev method = .error .otherError →
        lambda_handler beh st ev = .ok (⟨500, errBody "Internal server error"⟩, st)) := by
  refine ⟨?_, ?_, ?_, ?_⟩
  · cases hme : ev.httpMethod with
    | null => exact absurd hme hnn
    | absent => exact lambda_handler_ok beh st ev (pyUpper "") (by simp [methodOf, hme])
    | given m => exact lambda_handler_ok beh st ev (pyUpper m) (by simp [methodOf, hme])
  · intro m hm h1 h2 h3
    simp [lambda_handler, methodOf, hm, dispatch, h1, h2, h3]
  · intro method hm hd
    simp [lambda_handler, hm, hd]
  · intro method hm hd
    simp [lambda_handler, hm, hd]

/-- C10 witness: a DELETE request gets the 405 response with the state
untouched. -/
theorem C10_witness :
    lambda_handler ⟨true, true, true, true⟩ ⟨[], []⟩
      ⟨.given "DELETE", .absent, .absent⟩
      = .ok (⟨405, errBody "Method not allowed"⟩, ⟨[], []⟩) :=
  (C10_lambda_handler_total ⟨true, true, true, true⟩ ⟨[], []⟩
    ⟨.given "DELETE", .absent, .absent⟩ (fun h => nomatch h)).2.1 "DELETE" rfl
    (by decide) (by decide) (by decide)

end ConfigApp
